import Mathlib

/-!
RDMA verbs checkpoint/restore (`criu/ibverbs.c`).

A shallow embedding of the dump decoder and of the restore pipeline of
`criu/ibverbs.c`, followed by the properties established about them.

Conventions of the embedding.

* C unsigned integers are natural numbers; where the C arithmetic can wrap the
  reduction modulo `2^32` or `2^64` is written out (`add32`, `sub32`, `add64`).
* Pointers are natural numbers and `0` is `NULL`.
* The kernel, the verbs library and the other collaborators are an
  environment: every call is appended to a trace of events and its result is
  read from a `Kernel` record whose fields are functions of the trace so far
  (the call itself included), so that the statements hold for every behaviour
  of the environment.
* The collaborators of the dump, of the device lookup and of the collection
  (`DumpEnv`, `DevEnv`, `OpenEnv`) are records of the results of their calls.
* Constants that are declared in headers which are not part of the sources
  (`IB_UVERBS_OBJECT_*`, the `sizeof` of the dump records, `VMA_AREA_IBVERBS`,
  `IBVERBS_OBJECT_TYPE__*`) are the fields of the parameter `Uapi`.
-/

namespace Ibverbs

/-! ## Machine arithmetic -/

/-- Addition of `uint32_t` values. -/
def add32 (a b : Nat) : Nat := (a + b) % 2 ^ 32

/-- Subtraction of `uint32_t` values. -/
def sub32 (a b : Nat) : Nat := (a % 2 ^ 32 + 2 ^ 32 - b % 2 ^ 32) % 2 ^ 32

/-- Addition of `uint64_t` values. -/
def add64 (a b : Nat) : Nat := (a + b) % 2 ^ 64

/-- The value an `int` parameter receives when a `uint32_t` is passed to it. -/
def to_int (h : Nat) : Int :=
  if h % 2 ^ 32 < 2 ^ 31 then ((h % 2 ^ 32 : Nat) : Int) else ((h % 2 ^ 32 : Nat) : Int) - 2 ^ 32

/-- The largest `uint32_t`. -/
def UINT32_MAX : Nat := 4294967295

/-- Value of `errno.h` on Linux. -/
def ENOMEM : Int := 12

/-- Value of `errno.h` on Linux. -/
def EINVAL : Int := 22

/-- Value of `errno.h` on Linux. -/
def ENOTSUP : Int := 95

/-! ## Constants of the missing headers -/

/-- Constants used by `ibverbs.c` whose declarations are in headers outside the
sources: the object tags of the kernel dump ABI, the sizes of the dump
records, the `type` values of the image objects and the VMA status bit. -/
structure Uapi where
  IB_UVERBS_OBJECT_PD : Nat
  IB_UVERBS_OBJECT_MR : Nat
  IB_UVERBS_OBJECT_CQ : Nat
  IB_UVERBS_OBJECT_QP : Nat
  sizeof_dump_pd : Nat
  sizeof_dump_mr : Nat
  sizeof_dump_cq : Nat
  sizeof_dump_qp : Nat
  IBVERBS_OBJECT_TYPE__PD : Nat
  IBVERBS_OBJECT_TYPE__MR : Nat
  IBVERBS_OBJECT_TYPE__CQ : Nat
  IBVERBS_OBJECT_TYPE__QP : Nat
  VMA_AREA_IBVERBS : Nat

/-- One instance of the header constants, on which the definitions are
evaluated in the examples; the tags follow the enumeration PD, MR, CQ, QP. -/
def uapi0 : Uapi where
  IB_UVERBS_OBJECT_PD := 0
  IB_UVERBS_OBJECT_MR := 1
  IB_UVERBS_OBJECT_CQ := 2
  IB_UVERBS_OBJECT_QP := 3
  sizeof_dump_pd := 12
  sizeof_dump_mr := 48
  sizeof_dump_cq := 56
  sizeof_dump_qp := 208
  IBVERBS_OBJECT_TYPE__PD := 0
  IBVERBS_OBJECT_TYPE__MR := 1
  IBVERBS_OBJECT_TYPE__CQ := 2
  IBVERBS_OBJECT_TYPE__QP := 3
  VMA_AREA_IBVERBS := 16384

/-- Modelled from the spec: the QP states of the verbs headers (absent from the
sources), numbered in the order RESET, INIT, RTR, RTS of the state machine. -/
def IB_QPS_RESET : Nat := 0

/-- Modelled from the spec: see `IB_QPS_RESET`. -/
def IB_QPS_INIT : Nat := 1

/-- Modelled from the spec: see `IB_QPS_RESET`. -/
def IB_QPS_RTR : Nat := 2

/-- Modelled from the spec: see `IB_QPS_RESET`. -/
def IB_QPS_RTS : Nat := 3

/-- Modelled from the spec: the QP type "RC" of the verbs headers (absent from
the sources); the other QP types are the other numbers. -/
def IB_QPT_RC : Nat := 2

/-- Modelled from the spec: the attribute-mask bits of `ibv_modify_qp`, declared
in the verbs headers (absent from the sources). A mask is the set of its bits,
and `|` is the union. -/
inductive QpAttrMask where
  | IBV_QP_STATE
  | IBV_QP_CUR_STATE
  | IBV_QP_EN_SQD_ASYNC_NOTIFY
  | IBV_QP_ACCESS_FLAGS
  | IBV_QP_PKEY_INDEX
  | IBV_QP_PORT
  | IBV_QP_QKEY
  | IBV_QP_AV
  | IBV_QP_PATH_MTU
  | IBV_QP_TIMEOUT
  | IBV_QP_RETRY_CNT
  | IBV_QP_RNR_RETRY
  | IBV_QP_RQ_PSN
  | IBV_QP_MAX_QP_RD_ATOMIC
  | IBV_QP_ALT_PATH
  | IBV_QP_MIN_RNR_TIMER
  | IBV_QP_SQ_PSN
  | IBV_QP_MAX_DEST_RD_ATOMIC
  | IBV_QP_PATH_MIG_STATE
  | IBV_QP_CAP
  | IBV_QP_DEST_QPN
  deriving DecidableEq, Repr

open QpAttrMask

/-! ## Image objects (`images/ibverbs.proto`) -/

/-- Image message `RxeQueue`: the snapshot of one rxe ring. -/
structure RxeQueue where
  log2_elem_size : Nat := 0
  index_mask : Nat := 0
  producer_index : Nat := 0
  consumer_index : Nat := 0
  deriving DecidableEq, Repr

/-- Image message `RxeQp`: the send and receive rings of a QP. -/
structure RxeQp where
  sq : RxeQueue := {}
  rq : RxeQueue := {}
  deriving DecidableEq, Repr

/-- Image message `IbverbsMr`. -/
structure IbverbsMr where
  address : Nat := 0
  length : Nat := 0
  access : Nat := 0
  pd_handle : Nat := 0
  lkey : Nat := 0
  rkey : Nat := 0
  mrn : Nat := 0
  deriving DecidableEq, Repr

/-- Image message `IbverbsCq`; `comp_channel` is a signed field. -/
structure IbverbsCq where
  cqe : Nat := 0
  comp_channel : Int := 0
  vm_start : Nat := 0
  vm_size : Nat := 0
  comp_vector : Nat := 0
  rxe : RxeQueue := {}
  deriving DecidableEq, Repr

/-- Image message `IbverbsAhAttr`; `dgid` is the byte string `dgid.data` of length `dgid.len`. -/
structure IbverbsAhAttr where
  dgid : List Nat := []
  flow_label : Nat := 0
  sgid_index : Nat := 0
  hop_limit : Nat := 0
  traffic_class : Nat := 0
  dlid : Nat := 0
  sl : Nat := 0
  src_path_bits : Nat := 0
  static_rate : Nat := 0
  is_global : Nat := 0
  port_num : Nat := 0
  deriving DecidableEq, Repr

/-- Image message `IbverbsQp`. -/
structure IbverbsQp where
  pd_handle : Nat := 0
  qp_type : Nat := 0
  srq_handle : Nat := 0
  sq_sig_all : Nat := 0
  qp_state : Nat := 0
  pkey_index : Nat := 0
  port_num : Nat := 0
  qp_access_flags : Nat := 0
  path_mtu : Nat := 0
  dest_qp_num : Nat := 0
  rq_psn : Nat := 0
  max_dest_rd_atomic : Nat := 0
  min_rnr_timer : Nat := 0
  ah_attr : IbverbsAhAttr := {}
  sq_psn : Nat := 0
  max_rd_atomic : Nat := 0
  retry_cnt : Nat := 0
  rnr_retry : Nat := 0
  timeout : Nat := 0
  qp_num : Nat := 0
  wqe_index : Nat := 0
  req_opcode : Nat := 0
  comp_psn : Nat := 0
  comp_opcode : Nat := 0
  msn : Nat := 0
  resp_opcode : Nat := 0
  rq_start : Nat := 0
  rq_size : Nat := 0
  rcq_handle : Nat := 0
  scq_handle : Nat := 0
  sq_start : Nat := 0
  sq_size : Nat := 0
  max_send_wr : Nat := 0
  max_recv_wr : Nat := 0
  max_send_sge : Nat := 0
  max_recv_sge : Nat := 0
  max_inline_data : Nat := 0
  rxe : RxeQp := {}
  deriving DecidableEq, Repr

/-- Image message `IbverbsObject`: the tag, the kernel handle and the payload of the kind.
The payloads that the tag does not select are left at their defaults (the C
message holds a pointer per kind). -/
structure IbverbsObject where
  type : Nat := 0
  handle : Nat := 0
  mr : IbverbsMr := {}
  cq : IbverbsCq := {}
  qp : IbverbsQp := {}
  deriving DecidableEq, Repr

/-! ## Object catalog -/

/-- The handle ceiling `#define ELEM_COUNT 10`. -/
def ELEM_COUNT : Int := 10

/-- The static array `objects[IB_UVERBS_OBJECT_TOTAL][ELEM_COUNT]`, as the
memory it occupies: cell `object_type * ELEM_COUNT + id` holds
`objects[object_type][id]`. No bound is put on the cell index: a cell outside
the array stands for the memory next to it. -/
abbrev Table := Int → Nat

/-- The cell of `objects[object_type][id]`. -/
def objects_cell (object_type id : Int) : Int := object_type * ELEM_COUNT + id

/-- The catalog with every cell `NULL`. -/
def objects_empty : Table := fun _ => 0

/-- Source function `ibverbs_remember_object(object_type, id, object)`: the return value and
the table after the call. -/
def ibverbs_remember_object (objects : Table) (object_type id : Int) (object : Nat) :
    Int × Table :=
  if id ≥ ELEM_COUNT then (-ENOMEM, objects)
  else if objects (objects_cell object_type id) ≠ 0 then (-EINVAL, objects)
  else (0, Function.update objects (objects_cell object_type id) object)

/-- Source function `ibverbs_get_object(object_type, id)`. -/
def ibverbs_get_object (objects : Table) (object_type id : Int) : Nat :=
  if id ≥ ELEM_COUNT then 0 else objects (objects_cell object_type id)

/-! ## The environment of the restore -/

/-- The two service descriptors of the rxe knobs: `CR_IBVERBS_RXE_QPN` is
`/proc/sys/net/rdma_rxe/last_qpn`, `CR_IBVERBS_RXE_MRN` is `.../last_mrn`. -/
inductive Knob where
  | CR_IBVERBS_RXE_QPN
  | CR_IBVERBS_RXE_MRN
  deriving DecidableEq, Repr

open Knob

/-- Outcome of `pread` followed by `sscanf(buf, "%u", old_val)` on a knob:
`fail` when `pread` returns a negative value, `noparse` when `sscanf` does not
return 1, `val v` when the unsigned value `v` was parsed. -/
inductive KnobRead where
  | fail
  | noparse
  | val (v : Nat)
  deriving DecidableEq, Repr

/-- The fields of `struct ibv_pd`, `ibv_mr`, `ibv_cq`, `ibv_qp` that the code
reads, together with the address `ptr` of the struct (`0` for `NULL`);
`qp_num` is meaningful for a QP only. -/
structure VerbsObj where
  ptr : Nat := 0
  handle : Nat := 0
  qp_num : Nat := 0
  deriving DecidableEq, Repr

/-- The fields of `struct ibv_qp_attr` that `ibverbs_restore_qp` sets after
`memset(&attr, 0, sizeof(attr))`. The widths of the members are those of the
verbs headers, which are not part of the sources: a value is carried as it is
assigned. -/
structure ibv_qp_attr where
  qp_state : Nat := 0
  pkey_index : Nat := 0
  port_num : Nat := 0
  qp_access_flags : Nat := 0
  dgid : List Nat := List.replicate 16 0
  flow_label : Nat := 0
  sgid_index : Nat := 0
  hop_limit : Nat := 0
  traffic_class : Nat := 0
  dlid : Nat := 0
  sl : Nat := 0
  src_path_bits : Nat := 0
  static_rate : Nat := 0
  is_global : Nat := 0
  ah_port_num : Nat := 0
  path_mtu : Nat := 0
  dest_qp_num : Nat := 0
  rq_psn : Nat := 0
  max_dest_rd_atomic : Nat := 0
  min_rnr_timer : Nat := 0
  sq_psn : Nat := 0
  max_rd_atomic : Nat := 0
  retry_cnt : Nat := 0
  rnr_retry : Nat := 0
  timeout : Nat := 0
  deriving DecidableEq, Repr

/-- The argument `struct ibv_restore_qp` of `IBV_RESTORE_QP_CREATE`. -/
structure ibv_restore_qp where
  pd : Nat
  send_cq : Nat
  recv_cq : Nat
  srq : Nat
  qp_context : Nat
  qp_type : Nat
  sq_sig_all : Nat
  max_send_wr : Nat
  max_recv_wr : Nat
  max_send_sge : Nat
  max_recv_sge : Nat
  max_inline_data : Nat
  rq_vm_start : Nat
  rq_vm_size : Nat
  sq_vm_start : Nat
  sq_vm_size : Nat
  deriving DecidableEq, Repr

/-- Kernel struct `rxe_dump_queue`: the snapshot of one ring in the dump ABI. -/
structure rxe_dump_queue where
  log2_elem_size : Nat := 0
  index_mask : Nat := 0
  producer_index : Nat := 0
  consumer_index : Nat := 0
  deriving DecidableEq, Repr

/-- Source function `save_rxe_queue(rq, dump_queue)`: the image ring filled
from the dump ring. -/
def save_rxe_queue (dump_queue : rxe_dump_queue) : RxeQueue :=
  { log2_elem_size := dump_queue.log2_elem_size, index_mask := dump_queue.index_mask,
    producer_index := dump_queue.producer_index, consumer_index := dump_queue.consumer_index }

/-- Source function `restore_rxe_queue(dump_queue, rq)`: the dump ring filled
from the image ring. -/
def restore_rxe_queue (rq : RxeQueue) : rxe_dump_queue :=
  { log2_elem_size := rq.log2_elem_size, index_mask := rq.index_mask,
    producer_index := rq.producer_index, consumer_index := rq.consumer_index }

/-- Kernel struct `rxe_dump_qp`: the rxe part of a QP dump record and the
argument of `IBV_RESTORE_QP_REFILL`. -/
structure rxe_dump_qp where
  rq : rxe_dump_queue := {}
  sq : rxe_dump_queue := {}
  wqe_index : Nat := 0
  req_opcode : Nat := 0
  comp_psn : Nat := 0
  comp_opcode : Nat := 0
  msn : Nat := 0
  resp_opcode : Nat := 0
  deriving DecidableEq, Repr

/-- The command of `ibv_restore_object` with its argument block. -/
inductive RestoreCmd where
  | IBV_RESTORE_MR_KEYS (lkey rkey : Nat)
  | IBV_RESTORE_CQ_CREATE (cqe vm_start vm_size comp_vector channel : Nat)
  | IBV_RESTORE_CQ_REFILL (queue : rxe_dump_queue)
  | IBV_RESTORE_QP_CREATE (args : ibv_restore_qp)
  | IBV_RESTORE_QP_REFILL (dump_qp : rxe_dump_qp)
  deriving DecidableEq, Repr

open RestoreCmd

/-- A call made by the restore code to the kernel, the verbs library or the
VMA keeper. `pread` and `pwrite` are the accesses of `rxe_set_parameter` to a
knob; `pwrite` carries the `uint32_t new_val` that is formatted into the
buffer. `ibv_restore_object` carries the object pointer passed by reference,
the object type and the command. -/
inductive Ev where
  | pread (fd : Knob)
  | pwrite (fd : Knob) (new_val : Nat)
  | ibv_alloc_pd
  | ibv_dealloc_pd (pd : Nat)
  | ibv_reg_mr (pd address length access : Nat)
  | ibv_restore_object (object : Nat) (object_type : Nat) (cmd : RestoreCmd)
  | keep_address_range (start size : Nat)
  | ibv_modify_qp (qp : Nat) (attr : ibv_qp_attr) (attr_mask : Finset QpAttrMask)
  deriving DecidableEq

/-- The answers of the environment. Each field maps the trace of calls made so
far, the current call being its last element, to the result of that call.
`ibv_restore_object` returns its status together with the object that the
pointer passed by reference designates after the call. -/
structure Kernel where
  pread : List Ev → KnobRead
  pwrite : List Ev → Int
  ibv_alloc_pd : List Ev → VerbsObj
  ibv_reg_mr : List Ev → VerbsObj
  ibv_restore_object : List Ev → Int × VerbsObj
  keep_address_range : List Ev → Int
  ibv_modify_qp : List Ev → Int

/-- The state of the restore: the catalog and the trace of calls. -/
structure RestoreState where
  objects : Table
  trace : List Ev

/-! ## Kernel parameter knobs -/

/-- Result of a knob function: return value, the `uint32_t` behind the
`old` pointer after the call (`none` for a `NULL` pointer), and the trace. -/
structure KnobResult where
  ret : Int
  old_val : Option Nat
  trace : List Ev

/-- Source function `rxe_set_parameter(fd, new_val, old_val)`. The pointer
`old_val` is `none` for `NULL` and `some x` for a variable holding `x`. The
formatting `snprintf(buf, 32, "%d\n", new_val)` cannot fail and the write is
recorded by the value `new_val`; the bytes read and written are those of
`rxe_set_parameter_bytes`. -/
def rxe_set_parameter (k : Kernel) (tr : List Ev) (fd : Knob) (new_val : Nat)
    (old_val : Option Nat) : KnobResult :=
  match old_val with
  | some old =>
    match k.pread (tr ++ [Ev.pread fd]) with
    | KnobRead.fail => { ret := -1, old_val := some old, trace := tr ++ [Ev.pread fd] }
    | KnobRead.noparse => { ret := -1, old_val := some old, trace := tr ++ [Ev.pread fd] }
    | KnobRead.val v =>
      if k.pwrite (tr ++ [Ev.pread fd, Ev.pwrite fd new_val]) < 0 then
        { ret := -1, old_val := some (v % 2 ^ 32),
          trace := tr ++ [Ev.pread fd, Ev.pwrite fd new_val] }
      else
        { ret := 0, old_val := some (v % 2 ^ 32),
          trace := tr ++ [Ev.pread fd, Ev.pwrite fd new_val] }
  | none =>
    if k.pwrite (tr ++ [Ev.pwrite fd new_val]) < 0 then
      { ret := -1, old_val := none, trace := tr ++ [Ev.pwrite fd new_val] }
    else
      { ret := 0, old_val := none, trace := tr ++ [Ev.pwrite fd new_val] }

/-- Source function `rxe_set_last_qpn(qpn, old_qpn)`. -/
def rxe_set_last_qpn (k : Kernel) (tr : List Ev) (qpn : Nat) (old_qpn : Option Nat) :
    KnobResult :=
  let last_qpn := sub32 qpn 16
  let r := rxe_set_parameter k tr CR_IBVERBS_RXE_QPN last_qpn old_qpn
  if r.ret < 0 then { ret := -1, old_val := r.old_val, trace := r.trace }
  else { ret := 0, old_val := r.old_val.map (fun o => add32 o 16), trace := r.trace }

/-- Source function `rxe_set_last_mrn(new_mrn, old_mrn)`. -/
def rxe_set_last_mrn (k : Kernel) (tr : List Ev) (new_mrn : Nat) (old_mrn : Option Nat) :
    KnobResult :=
  let r := rxe_set_parameter k tr CR_IBVERBS_RXE_MRN new_mrn old_mrn
  if r.ret < 0 then { ret := -1, old_val := r.old_val, trace := r.trace }
  else { ret := 0, old_val := r.old_val, trace := r.trace }

/-! ## Restore pipeline -/

/-- Source function `ibverbs_restore_pd`: the return value and the state after
the call. -/
def ibverbs_restore_pd (u : Uapi) (k : Kernel) (s : RestoreState) (obj : IbverbsObject) :
    Int × RestoreState :=
  let pd := k.ibv_alloc_pd (s.trace ++ [Ev.ibv_alloc_pd])
  if pd.ptr = 0 then (-1, { s with trace := s.trace ++ [Ev.ibv_alloc_pd] })
  else if pd.handle ≠ obj.handle then
    (-1, { s with trace := s.trace ++ [Ev.ibv_alloc_pd] ++ [Ev.ibv_dealloc_pd pd.ptr] })
  else
    let rem := ibverbs_remember_object s.objects u.IB_UVERBS_OBJECT_PD (to_int pd.handle) pd.ptr
    if rem.1 ≠ 0 then
      (-1, { objects := rem.2,
             trace := s.trace ++ [Ev.ibv_alloc_pd] ++ [Ev.ibv_dealloc_pd pd.ptr] })
    else (0, { objects := rem.2, trace := s.trace ++ [Ev.ibv_alloc_pd] })

/-- Source function `ibverbs_restore_mr`. The local `old_mrn` is passed to
`rxe_set_last_mrn` by address; it is written before it is read. -/
def ibverbs_restore_mr (u : Uapi) (k : Kernel) (s : RestoreState) (obj : IbverbsObject) :
    Int × RestoreState :=
  let pb_mr := obj.mr
  let pd := ibverbs_get_object s.objects u.IB_UVERBS_OBJECT_PD (to_int pb_mr.pd_handle)
  if pd = 0 then (-1, s)
  else
    let r1 := rxe_set_last_mrn k s.trace (sub32 pb_mr.mrn 1) (some 0)
    if r1.ret < 0 then (-1, { s with trace := r1.trace })
    else
      let tr2 := r1.trace ++ [Ev.ibv_reg_mr pd pb_mr.address pb_mr.length pb_mr.access]
      let ibv_mr := k.ibv_reg_mr tr2
      if ibv_mr.ptr = 0 then (-1, { s with trace := tr2 })
      else
        let r2 := rxe_set_last_mrn k tr2 (r1.old_val.getD 0) none
        if r2.ret < 0 then (-1, { s with trace := r2.trace })
        else
          let tr3 := r2.trace ++ [Ev.ibv_restore_object ibv_mr.ptr u.IB_UVERBS_OBJECT_MR
            (IBV_RESTORE_MR_KEYS pb_mr.lkey pb_mr.rkey)]
          let res := k.ibv_restore_object tr3
          if res.1 ≠ 0 then (-1, { s with trace := tr3 })
          else
            let rem := ibverbs_remember_object s.objects u.IB_UVERBS_OBJECT_MR
              (to_int res.2.handle) res.2.ptr
            if rem.1 ≠ 0 then (-1, { objects := rem.2, trace := tr3 })
            else (0, { objects := rem.2, trace := tr3 })

/-- Source function `ibverbs_restore_cq`. The pointer `ibv_cq` is not
initialised before `IBV_RESTORE_CQ_CREATE`; it is passed as `0`. -/
def ibverbs_restore_cq (u : Uapi) (k : Kernel) (s : RestoreState) (obj : IbverbsObject) :
    Int × RestoreState :=
  let cq := obj.cq
  if cq.comp_channel ≠ -1 then (-1, s)
  else
    let tr1 := s.trace ++ [Ev.ibv_restore_object 0 u.IB_UVERBS_OBJECT_CQ
      (IBV_RESTORE_CQ_CREATE cq.cqe cq.vm_start cq.vm_size cq.comp_vector 0)]
    let res := k.ibv_restore_object tr1
    if res.1 ≠ 0 then (-1, { s with trace := tr1 })
    else
      let tr2 := if cq.vm_size > 0 then tr1 ++ [Ev.keep_address_range cq.vm_start cq.vm_size]
        else tr1
      if cq.vm_size > 0 ∧ k.keep_address_range tr2 ≠ 0 then (-1, { s with trace := tr2 })
      else
        let rem := ibverbs_remember_object s.objects u.IB_UVERBS_OBJECT_CQ
          (to_int res.2.handle) res.2.ptr
        if rem.1 ≠ 0 then (-1, { objects := rem.2, trace := tr2 })
        else
          let tr3 := tr2 ++ [Ev.ibv_restore_object res.2.ptr u.IB_UVERBS_OBJECT_CQ
            (IBV_RESTORE_CQ_REFILL (restore_rxe_queue cq.rxe))]
          if (k.ibv_restore_object tr3).1 ≠ 0 then (-1, { objects := rem.2, trace := tr3 })
          else (0, { objects := rem.2, trace := tr3 })

/-- The attributes of the RESET to INIT call of `ibverbs_restore_qp`. -/
def qp_attr_init (qp : IbverbsQp) : ibv_qp_attr :=
  { qp_state := IB_QPS_INIT, pkey_index := qp.pkey_index, port_num := qp.port_num,
    qp_access_flags := qp.qp_access_flags }

/-- The mask of the RESET to INIT call, for QP type RC:
`IBV_QP_STATE | IBV_QP_PKEY_INDEX | IBV_QP_PORT`, then `|= IBV_QP_ACCESS_FLAGS`. -/
def qp_flags_init : Finset QpAttrMask :=
  ({IBV_QP_STATE, IBV_QP_PKEY_INDEX, IBV_QP_PORT} : Finset QpAttrMask) ∪ {IBV_QP_ACCESS_FLAGS}

/-- The attributes of the INIT to RTR call. `memcpy` copies `dgid.len` bytes
of `dgid.data` over the zeroed 16-byte `dgid.raw`; bytes beyond the sixteenth
are not part of the attribute. -/
def qp_attr_rtr (qp : IbverbsQp) : ibv_qp_attr :=
  { qp_state := IB_QPS_RTR,
    dgid := qp.ah_attr.dgid.take 16 ++ List.replicate (16 - qp.ah_attr.dgid.length) 0,
    flow_label := qp.ah_attr.flow_label,
    sgid_index := qp.ah_attr.sgid_index,
    hop_limit := qp.ah_attr.hop_limit,
    traffic_class := qp.ah_attr.traffic_class,
    dlid := qp.ah_attr.dlid,
    sl := qp.ah_attr.sl,
    src_path_bits := qp.ah_attr.src_path_bits,
    static_rate := qp.ah_attr.static_rate,
    is_global := qp.ah_attr.is_global,
    ah_port_num := qp.ah_attr.port_num,
    path_mtu := qp.path_mtu,
    dest_qp_num := qp.dest_qp_num,
    rq_psn := qp.rq_psn,
    max_dest_rd_atomic := qp.max_dest_rd_atomic,
    min_rnr_timer := qp.min_rnr_timer }

/-- The mask of the INIT to RTR call, for QP type RC. -/
def qp_flags_rtr : Finset QpAttrMask :=
  ({IBV_QP_STATE} : Finset QpAttrMask) ∪
    {IBV_QP_AV, IBV_QP_PATH_MTU, IBV_QP_DEST_QPN, IBV_QP_RQ_PSN, IBV_QP_MAX_DEST_RD_ATOMIC,
      IBV_QP_MIN_RNR_TIMER}

/-- The attributes of the RTR to RTS call. -/
def qp_attr_rts (qp : IbverbsQp) : ibv_qp_attr :=
  { qp_state := IB_QPS_RTS, sq_psn := qp.sq_psn, max_rd_atomic := qp.max_rd_atomic,
    retry_cnt := qp.retry_cnt, rnr_retry := qp.rnr_retry, timeout := qp.timeout }

/-- The mask of the RTR to RTS call, for QP type RC. -/
def qp_flags_rts : Finset QpAttrMask :=
  ({IBV_QP_STATE} : Finset QpAttrMask) ∪
    {IBV_QP_SQ_PSN, IBV_QP_MAX_QP_RD_ATOMIC, IBV_QP_RETRY_CNT, IBV_QP_RNR_RETRY, IBV_QP_TIMEOUT}

/-- The `while (1)` block of `ibverbs_restore_qp` (the walk of the state
machine): `some r` when the block executes `return r`, `none` when it leaves
by `break`; with the trace after it. -/
def ibverbs_restore_qp_states (k : Kernel) (tr : List Ev) (qp : IbverbsQp) (ibv_qp : VerbsObj) :
    Option Int × List Ev :=
  if qp.qp_state = IB_QPS_RESET then (none, tr)
  else if qp.qp_type ≠ IB_QPT_RC then (some (-1), tr)
  else
    let tr1 := tr ++ [Ev.ibv_modify_qp ibv_qp.ptr (qp_attr_init qp) qp_flags_init]
    if k.ibv_modify_qp tr1 ≠ 0 then (some (-1), tr1)
    else if qp.qp_state = IB_QPS_INIT then (none, tr1)
    else if qp.qp_type ≠ IB_QPT_RC then (some (-1), tr1)
    else
      let tr2 := tr1 ++ [Ev.ibv_modify_qp ibv_qp.ptr (qp_attr_rtr qp) qp_flags_rtr]
      if k.ibv_modify_qp tr2 ≠ 0 then (some (-1), tr2)
      else if qp.qp_state = IB_QPS_RTR then (none, tr2)
      else if qp.qp_type ≠ IB_QPT_RC then (some (-1), tr2)
      else
        let tr3 := tr2 ++ [Ev.ibv_modify_qp ibv_qp.ptr (qp_attr_rts qp) qp_flags_rts]
        if k.ibv_modify_qp tr3 ≠ 0 then (some (-1), tr3)
        else if qp.qp_state = IB_QPS_RTS then (none, tr3)
        else (some (-1), tr3)

/-- The argument block of `IBV_RESTORE_QP_REFILL` built by `ibverbs_restore_qp`. -/
def qp_refill_args (qp : IbverbsQp) : rxe_dump_qp :=
  { rq := restore_rxe_queue qp.rxe.rq, sq := restore_rxe_queue qp.rxe.sq, wqe_index := qp.wqe_index, req_opcode := qp.req_opcode,
    comp_psn := qp.comp_psn, comp_opcode := qp.comp_opcode, msn := qp.msn,
    resp_opcode := qp.resp_opcode }

/-- The argument block of `IBV_RESTORE_QP_CREATE` built by `ibverbs_restore_qp`. -/
def qp_create_args (qp : IbverbsQp) (pd send_cq recv_cq : Nat) : ibv_restore_qp :=
  { pd := pd, send_cq := send_cq, recv_cq := recv_cq, srq := 0, qp_context := 0,
    qp_type := qp.qp_type, sq_sig_all := qp.sq_sig_all,
    max_send_wr := qp.max_send_wr, max_recv_wr := qp.max_recv_wr,
    max_send_sge := qp.max_send_sge, max_recv_sge := qp.max_recv_sge,
    max_inline_data := qp.max_inline_data,
    rq_vm_start := qp.rq_start, rq_vm_size := qp.rq_size,
    sq_vm_start := qp.sq_start, sq_vm_size := qp.sq_size }

/-- The part of `ibverbs_restore_qp` after the second `rxe_set_last_qpn`: the
two `keep_address_range` calls, the walk of the state machine and the
refill. -/
def ibverbs_restore_qp_tail (u : Uapi) (k : Kernel) (objects : Table) (tr : List Ev)
    (qp : IbverbsQp) (ibv_qp : VerbsObj) : Int × RestoreState :=
  let tr1 := if qp.rq_size > 0 then tr ++ [Ev.keep_address_range qp.rq_start qp.rq_size] else tr
  if qp.rq_size > 0 ∧ k.keep_address_range tr1 ≠ 0 then (-1, { objects := objects, trace := tr1 })
  else
    let tr2 := if qp.sq_size > 0 then tr1 ++ [Ev.keep_address_range qp.sq_start qp.sq_size]
      else tr1
    if qp.sq_size > 0 ∧ k.keep_address_range tr2 ≠ 0 then
      (-1, { objects := objects, trace := tr2 })
    else
      let w := ibverbs_restore_qp_states k tr2 qp ibv_qp
      match w.1 with
      | some r => (r, { objects := objects, trace := w.2 })
      | none =>
        let tr3 := w.2 ++ [Ev.ibv_restore_object ibv_qp.ptr u.IB_UVERBS_OBJECT_QP
          (IBV_RESTORE_QP_REFILL (qp_refill_args qp))]
        if (k.ibv_restore_object tr3).1 ≠ 0 then (-1, { objects := objects, trace := tr3 })
        else (0, { objects := objects, trace := tr3 })

/-- Source function `ibverbs_restore_qp`. The local `old_qpn` is passed to
`rxe_set_last_qpn` by address; it is written before it is read. The pointer
`ibv_qp` is not initialised before `IBV_RESTORE_QP_CREATE`; it is passed as
`0`. -/
def ibverbs_restore_qp (u : Uapi) (k : Kernel) (s : RestoreState) (obj : IbverbsObject) :
    Int × RestoreState :=
  let qp := obj.qp
  let pd := ibverbs_get_object s.objects u.IB_UVERBS_OBJECT_PD (to_int qp.pd_handle)
  if pd = 0 then (-1, s)
  else
    let send_cq := ibverbs_get_object s.objects u.IB_UVERBS_OBJECT_CQ (to_int qp.scq_handle)
    if send_cq = 0 then (-1, s)
    else
      let recv_cq := ibverbs_get_object s.objects u.IB_UVERBS_OBJECT_CQ (to_int qp.rcq_handle)
      if recv_cq = 0 then (-1, s)
      else if qp.srq_handle ≠ UINT32_MAX then (-ENOTSUP, s)
      else
        let r1 := rxe_set_last_qpn k s.trace qp.qp_num (some 0)
        if r1.ret < 0 then (-1, { s with trace := r1.trace })
        else
          let tr2 := r1.trace ++ [Ev.ibv_restore_object 0 u.IB_UVERBS_OBJECT_QP
            (IBV_RESTORE_QP_CREATE (qp_create_args qp pd send_cq recv_cq))]
          let res := k.ibv_restore_object tr2
          if res.1 ≠ 0 then (-1, { s with trace := tr2 })
          else if res.2.qp_num ≠ qp.qp_num then (-1, { s with trace := tr2 })
          else
            let r2 := rxe_set_last_qpn k tr2 (r1.old_val.getD 0) none
            if r2.ret < 0 then (-1, { s with trace := r2.trace })
            else ibverbs_restore_qp_tail u k s.objects r2.trace qp res.2

/-! ## Dump decoder -/

/-- Kernel struct `ib_uverbs_dump_object`: the header of every dump record. -/
structure ib_uverbs_dump_object where
  type : Nat := 0
  size : Nat := 0
  handle : Nat := 0
  deriving DecidableEq, Repr

/-- The members of `struct ib_uverbs_dump_object_mr` after the header `obj`. -/
structure ib_uverbs_dump_object_mr where
  address : Nat := 0
  length : Nat := 0
  access : Nat := 0
  pd_handle : Nat := 0
  lkey : Nat := 0
  rkey : Nat := 0
  rxe_mrn : Nat := 0
  deriving DecidableEq, Repr

/-- The members of `struct ib_uverbs_dump_object_cq` after the header `obj`. -/
structure ib_uverbs_dump_object_cq where
  cqe : Nat := 0
  comp_channel : Int := 0
  vm_start : Nat := 0
  vm_size : Nat := 0
  comp_vector : Nat := 0
  rxe : rxe_dump_queue := {}
  deriving DecidableEq, Repr

/-- The member `attr` of `struct ib_uverbs_dump_object_qp`, with `ah_attr`,
`ah_attr.grh` and `cap` flattened. -/
structure dump_qp_attr where
  qp_state : Nat := 0
  pkey_index : Nat := 0
  port_num : Nat := 0
  qp_access_flags : Nat := 0
  path_mtu : Nat := 0
  dest_qp_num : Nat := 0
  rq_psn : Nat := 0
  max_dest_rd_atomic : Nat := 0
  min_rnr_timer : Nat := 0
  grh_dgid : List Nat := List.replicate 16 0
  grh_flow_label : Nat := 0
  grh_sgid_index : Nat := 0
  grh_hop_limit : Nat := 0
  grh_traffic_class : Nat := 0
  ah_dlid : Nat := 0
  ah_sl : Nat := 0
  ah_src_path_bits : Nat := 0
  ah_static_rate : Nat := 0
  ah_is_global : Nat := 0
  ah_port_num : Nat := 0
  sq_psn : Nat := 0
  max_rd_atomic : Nat := 0
  retry_cnt : Nat := 0
  rnr_retry : Nat := 0
  timeout : Nat := 0
  cap_max_send_wr : Nat := 0
  cap_max_recv_wr : Nat := 0
  cap_max_send_sge : Nat := 0
  cap_max_recv_sge : Nat := 0
  cap_max_inline_data : Nat := 0
  deriving DecidableEq, Repr

/-- The members of `struct ib_uverbs_dump_object_qp` after the header `obj`. -/
structure ib_uverbs_dump_object_qp where
  pd_handle : Nat := 0
  qp_type : Nat := 0
  srq_handle : Nat := 0
  sq_sig_all : Nat := 0
  attr : dump_qp_attr := {}
  qp_num : Nat := 0
  rxe : rxe_dump_qp := {}
  rq_start : Nat := 0
  rq_size : Nat := 0
  rcq_handle : Nat := 0
  scq_handle : Nat := 0
  sq_start : Nat := 0
  sq_size : Nat := 0
  deriving DecidableEq, Repr

/-- What the decoder sees through the pointer `cur_obj`: the header, and the
rest of the enclosing record as each `container_of` cast presents it. -/
structure DumpView where
  obj : ib_uverbs_dump_object := {}
  mr : ib_uverbs_dump_object_mr := {}
  cq : ib_uverbs_dump_object_cq := {}
  qp : ib_uverbs_dump_object_qp := {}
  deriving DecidableEq, Repr

/-- The dump buffer, by byte offset from its start: `dump o` is what is read
through a record pointer at offset `o`. -/
abbrev DumpBuf := Nat → DumpView

/-- The capacity `dump_size` of the dump buffer, in bytes. -/
def dump_size : Nat := 4096

/-- The fields of `vma->e` that the decoder uses (`end_` is the member `end`). -/
structure VmaEntry where
  start : Nat
  end_ : Nat
  status : Nat
  deriving DecidableEq, Repr

/-- Result of the decoding of one record: the return value (the size of the
record, or `-1`) and the image object stored in `*pb_obj`. -/
structure DumpOne where
  ret : Int
  pb_obj : Option IbverbsObject
  deriving DecidableEq, Repr

/-- Source function `dump_one_ibverbs_pd`. `alloc_ok` tells whether the
`xmalloc` calls of the function succeed. -/
def dump_one_ibverbs_pd (u : Uapi) (alloc_ok : Bool) (dump_obj : ib_uverbs_dump_object) :
    DumpOne :=
  if dump_obj.size ≠ u.sizeof_dump_pd then { ret := -1, pb_obj := none }
  else if alloc_ok = false then { ret := -1, pb_obj := none }
  else
    { ret := (u.sizeof_dump_pd : Int),
      pb_obj := some { type := u.IBVERBS_OBJECT_TYPE__PD, handle := dump_obj.handle } }

/-- The body of the loop of `dump_one_ibverbs_mr` over the VMA list: a VMA is
skipped when `end < address` or `address + length < start` (in 64 bits), and
gets the bit `VMA_AREA_IBVERBS` otherwise. -/
def mark_vma (u : Uapi) (address length : Nat) (vma : VmaEntry) : VmaEntry :=
  if vma.end_ < address ∨ add64 address length < vma.start then vma
  else { vma with status := vma.status ||| u.VMA_AREA_IBVERBS }

/-- The loop `list_for_each_entry_safe` of `dump_one_ibverbs_mr` over the VMA
list. -/
def mark_vmas (u : Uapi) (address length : Nat) (vmas : List VmaEntry) : List VmaEntry :=
  vmas.map (mark_vma u address length)

/-- Source function `dump_one_ibverbs_mr`: the decoding result and the VMA
list after the call. -/
def dump_one_ibverbs_mr (u : Uapi) (alloc_ok : Bool) (dump_obj : ib_uverbs_dump_object)
    (dump_mr : ib_uverbs_dump_object_mr) (vmas : List VmaEntry) : DumpOne × List VmaEntry :=
  if dump_obj.size ≠ u.sizeof_dump_mr then ({ ret := -1, pb_obj := none }, vmas)
  else if alloc_ok = false then ({ ret := -1, pb_obj := none }, vmas)
  else
    let mr : IbverbsMr :=
      { address := dump_mr.address, length := dump_mr.length, access := dump_mr.access,
        pd_handle := dump_mr.pd_handle, lkey := dump_mr.lkey, rkey := dump_mr.rkey,
        mrn := dump_mr.rxe_mrn }
    ({ ret := (u.sizeof_dump_mr : Int),
       pb_obj := some { type := u.IBVERBS_OBJECT_TYPE__MR, handle := dump_obj.handle, mr := mr } },
     mark_vmas u mr.address mr.length vmas)

/-- Source function `dump_one_ibverbs_cq`. -/
def dump_one_ibverbs_cq (u : Uapi) (alloc_ok : Bool) (dump_obj : ib_uverbs_dump_object)
    (dump_cq : ib_uverbs_dump_object_cq) : DumpOne :=
  if dump_obj.size ≠ u.sizeof_dump_cq then { ret := -1, pb_obj := none }
  else if alloc_ok = false then { ret := -1, pb_obj := none }
  else
    let cq : IbverbsCq :=
      { cqe := dump_cq.cqe, comp_channel := dump_cq.comp_channel, vm_start := dump_cq.vm_start,
        vm_size := dump_cq.vm_size, comp_vector := dump_cq.comp_vector,
        rxe := save_rxe_queue dump_cq.rxe }
    { ret := (u.sizeof_dump_cq : Int),
      pb_obj := some { type := u.IBVERBS_OBJECT_TYPE__CQ, handle := dump_obj.handle, cq := cq } }

/-- Source function `dump_one_ibverbs_qp`. -/
def dump_one_ibverbs_qp (u : Uapi) (alloc_ok : Bool) (dump_obj : ib_uverbs_dump_object)
    (dump_qp : ib_uverbs_dump_object_qp) : DumpOne :=
  if dump_obj.size ≠ u.sizeof_dump_qp then { ret := -1, pb_obj := none }
  else if alloc_ok = false then { ret := -1, pb_obj := none }
  else
    let ah : IbverbsAhAttr :=
      { dgid := dump_qp.attr.grh_dgid,
        flow_label := dump_qp.attr.grh_flow_label,
        sgid_index := dump_qp.attr.grh_sgid_index,
        hop_limit := dump_qp.attr.grh_hop_limit,
        traffic_class := dump_qp.attr.grh_traffic_class,
        dlid := dump_qp.attr.ah_dlid,
        sl := dump_qp.attr.ah_sl,
        src_path_bits := dump_qp.attr.ah_src_path_bits,
        static_rate := dump_qp.attr.ah_static_rate,
        is_global := dump_qp.attr.ah_is_global,
        port_num := dump_qp.attr.ah_port_num }
    let qp : IbverbsQp :=
      { pd_handle := dump_qp.pd_handle,
        qp_type := dump_qp.qp_type,
        srq_handle := dump_qp.srq_handle,
        sq_sig_all := dump_qp.sq_sig_all,
        qp_state := dump_qp.attr.qp_state,
        pkey_index := dump_qp.attr.pkey_index,
        port_num := dump_qp.attr.port_num,
        qp_access_flags := dump_qp.attr.qp_access_flags,
        path_mtu := dump_qp.attr.path_mtu,
        dest_qp_num := dump_qp.attr.dest_qp_num,
        rq_psn := dump_qp.attr.rq_psn,
        max_dest_rd_atomic := dump_qp.attr.max_dest_rd_atomic,
        min_rnr_timer := dump_qp.attr.path_mtu,
        ah_attr := ah,
        sq_psn := dump_qp.attr.sq_psn,
        max_rd_atomic := dump_qp.attr.max_rd_atomic,
        retry_cnt := dump_qp.attr.retry_cnt,
        rnr_retry := dump_qp.attr.rnr_retry,
        timeout := dump_qp.attr.timeout,
        qp_num := dump_qp.qp_num,
        wqe_index := dump_qp.rxe.wqe_index,
        req_opcode := dump_qp.rxe.req_opcode,
        comp_psn := dump_qp.rxe.comp_psn,
        comp_opcode := dump_qp.rxe.comp_opcode,
        msn := dump_qp.rxe.msn,
        resp_opcode := dump_qp.rxe.resp_opcode,
        rq_start := dump_qp.rq_start,
        rq_size := dump_qp.rq_size,
        rcq_handle := dump_qp.rcq_handle,
        scq_handle := dump_qp.scq_handle,
        sq_start := dump_qp.sq_start,
        sq_size := dump_qp.sq_size,
        max_send_wr := dump_qp.attr.cap_max_send_wr,
        max_recv_wr := dump_qp.attr.cap_max_recv_wr,
        max_send_sge := dump_qp.attr.cap_max_send_sge,
        max_recv_sge := dump_qp.attr.cap_max_recv_sge,
        max_inline_data := dump_qp.attr.cap_max_inline_data,
        rxe := { sq := save_rxe_queue dump_qp.rxe.sq, rq := save_rxe_queue dump_qp.rxe.rq } }
    { ret := (u.sizeof_dump_qp : Int),
      pb_obj := some { type := u.IBVERBS_OBJECT_TYPE__QP, handle := dump_obj.handle, qp := qp } }

/-- The `switch (obj->type)` of the loop of `dump_one_ibverbs`, on the record
seen at `cur_obj`: the decoding result and the VMA list after it. -/
def dump_switch (u : Uapi) (alloc_ok : Bool) (v : DumpView) (vmas : List VmaEntry) :
    DumpOne × List VmaEntry :=
  if v.obj.type = u.IB_UVERBS_OBJECT_PD then (dump_one_ibverbs_pd u alloc_ok v.obj, vmas)
  else if v.obj.type = u.IB_UVERBS_OBJECT_MR then dump_one_ibverbs_mr u alloc_ok v.obj v.mr vmas
  else if v.obj.type = u.IB_UVERBS_OBJECT_CQ then (dump_one_ibverbs_cq u alloc_ok v.obj v.cq, vmas)
  else if v.obj.type = u.IB_UVERBS_OBJECT_QP then (dump_one_ibverbs_qp u alloc_ok v.obj v.qp, vmas)
  else ({ ret := -1, pb_obj := none }, vmas)

/-- The variables of the decoding loop: the byte offset of `cur_obj` in the
dump buffer, the objects stored in `ibv.objs` so far, the VMA list, and the
offsets at which a record has been read. -/
structure DecodeState where
  cur_obj : Nat
  objs : List IbverbsObject
  vmas : List VmaEntry
  read : List Nat
  deriving DecidableEq, Repr

/-- The loop `for (i = 0; i < count; i++)` of `dump_one_ibverbs`, with the
number of iterations left, the index `i` and the current `ret`; it returns
`ret` and the variables when the loop is left, by `goto out` (a negative
`ret`) or at `i = count`. `record_alloc i` tells whether the allocations made
for record `i` succeed. -/
def dump_objs_loop (u : Uapi) (dump : DumpBuf) (record_alloc : Nat → Bool) :
    Nat → Nat → Int → DecodeState → Int × DecodeState
  | 0, _, ret, st => (ret, st)
  | n + 1, i, _, st =>
    let r := dump_switch u (record_alloc i) (dump st.cur_obj) st.vmas
    if r.1.ret < 0 then
      (r.1.ret, { st with vmas := r.2, read := st.read ++ [st.cur_obj] })
    else
      dump_objs_loop u dump record_alloc n (i + 1) r.1.ret
        { cur_obj := st.cur_obj + r.1.ret.toNat,
          objs := st.objs ++ r.1.pb_obj.toList,
          vmas := r.2,
          read := st.read ++ [st.cur_obj] }

/-- The collaborators of `dump_one_ibverbs`: the return value of
`dump_one_reg_file`, the pointers returned by `find_ibdev("rxe0")`,
`ibv_reopen_device`, `xzalloc(dump_size)` and the `xzalloc` of `ibv.objs`, the
return value, object count and buffer contents of `ibv_dump_context`, the
outcome of the allocations of each record, and the return value of
`pb_write_one`. -/
structure DumpEnv where
  dump_one_reg_file : Int
  find_ibdev : Nat
  ibv_reopen_device : Nat
  xzalloc_dump : Nat
  ibv_dump_context : Int
  count : Int
  dump : DumpBuf
  xzalloc_objs : Nat
  record_alloc : Nat → Bool
  pb_write_one : Int

/-- What `dump_one_ibverbs` leaves: its return value, the objects of the
image entry handed to `pb_write_one` (`none` when `pb_write_one` is not
called), the VMA list, and the final loop variables `cur_obj` and `read`. -/
structure DumpResult where
  ret : Int
  written : Option (List IbverbsObject)
  vmas : List VmaEntry
  cur_obj : Nat
  read : List Nat
  deriving DecidableEq, Repr

/-- Source function `dump_one_ibverbs`. -/
def dump_one_ibverbs (u : Uapi) (env : DumpEnv) (vmas : List VmaEntry) : DumpResult :=
  if env.dump_one_reg_file ≠ 0 then
    { ret := -1, written := none, vmas := vmas, cur_obj := 0, read := [] }
  else if env.find_ibdev = 0 then
    { ret := -1, written := none, vmas := vmas, cur_obj := 0, read := [] }
  else if env.ibv_reopen_device = 0 then
    { ret := -1, written := none, vmas := vmas, cur_obj := 0, read := [] }
  else if env.xzalloc_dump = 0 then
    { ret := -1, written := none, vmas := vmas, cur_obj := 0, read := [] }
  else if env.ibv_dump_context ≠ 0 then
    { ret := env.ibv_dump_context, written := none, vmas := vmas, cur_obj := 0, read := [] }
  else if env.xzalloc_objs = 0 then
    { ret := env.ibv_dump_context, written := none, vmas := vmas, cur_obj := 0, read := [] }
  else
    let r := dump_objs_loop u env.dump env.record_alloc env.count.toNat 0 env.ibv_dump_context
      { cur_obj := 0, objs := [], vmas := vmas, read := [] }
    if r.1 < 0 then
      { ret := r.1, written := none, vmas := r.2.vmas, cur_obj := r.2.cur_obj, read := r.2.read }
    else
      { ret := env.pb_write_one, written := some r.2.objs, vmas := r.2.vmas,
        cur_obj := r.2.cur_obj, read := r.2.read }

/-! ## Observations on traces -/

/-- The values written to the knob `fd` in a trace, in order. -/
def knob_writes (fd : Knob) (tr : List Ev) : List Nat :=
  tr.filterMap (fun e =>
    match e with
    | Ev.pwrite fd2 v => if fd2 = fd then some v else none
    | _ => none)

/-- The `ibv_modify_qp` calls of a trace, in order: requested attributes and
mask. -/
def modify_calls (tr : List Ev) : List (ibv_qp_attr × Finset QpAttrMask) :=
  tr.filterMap (fun e =>
    match e with
    | Ev.ibv_modify_qp _ attr m => some (attr, m)
    | _ => none)

/-- The three transitions of the walk RESET, INIT, RTR, RTS for a QP record:
the attributes and mask of each `ibv_modify_qp`. -/
def qp_transitions (qp : IbverbsQp) : List (ibv_qp_attr × Finset QpAttrMask) :=
  [(qp_attr_init qp, qp_flags_init), (qp_attr_rtr qp, qp_flags_rtr),
   (qp_attr_rts qp, qp_flags_rts)]

/-- An environment in which every call succeeds: the knobs read `knob`, the
creation calls return `created`. -/
def kernel_ok (created : VerbsObj) (knob : Nat) : Kernel where
  pread := fun _ => KnobRead.val knob
  pwrite := fun _ => 4
  ibv_alloc_pd := fun _ => created
  ibv_reg_mr := fun _ => created
  ibv_restore_object := fun _ => (0, created)
  keep_address_range := fun _ => 0
  ibv_modify_qp := fun _ => 0

/-- The `ibv_modify_qp` events on the QP at `ptr` for a list of transitions. -/
def modify_events (ptr : Nat) (l : List (ibv_qp_attr × Finset QpAttrMask)) : List Ev :=
  l.map (fun a => Ev.ibv_modify_qp ptr a.1 a.2)

/-- The `keep_address_range` events of `ibverbs_restore_qp`: one for each of
the receive and send queues whose size is not zero. -/
def keep_events (qp : IbverbsQp) : List Ev :=
  (if qp.rq_size > 0 then [Ev.keep_address_range qp.rq_start qp.rq_size] else []) ++
  (if qp.sq_size > 0 then [Ev.keep_address_range qp.sq_start qp.sq_size] else [])

/-- The `IBV_RESTORE_QP_CREATE` call of `ibverbs_restore_qp` from the catalog
`objects`. -/
def qp_create_event (u : Uapi) (objects : Table) (qp : IbverbsQp) : Ev :=
  Ev.ibv_restore_object 0 u.IB_UVERBS_OBJECT_QP (IBV_RESTORE_QP_CREATE (qp_create_args qp
    (ibverbs_get_object objects u.IB_UVERBS_OBJECT_PD (to_int qp.pd_handle))
    (ibverbs_get_object objects u.IB_UVERBS_OBJECT_CQ (to_int qp.scq_handle))
    (ibverbs_get_object objects u.IB_UVERBS_OBJECT_CQ (to_int qp.rcq_handle))))

/-- The QP that the environment returns to the `IBV_RESTORE_QP_CREATE` call of
`ibverbs_restore_qp` run from the state `s`. -/
def qp_created (u : Uapi) (k : Kernel) (s : RestoreState) (qp : IbverbsQp) : VerbsObj :=
  (k.ibv_restore_object (s.trace ++ [Ev.pread CR_IBVERBS_RXE_QPN,
    Ev.pwrite CR_IBVERBS_RXE_QPN (sub32 qp.qp_num 16), qp_create_event u s.objects qp])).2

/-- A catalog holding a PD under handle 0 and CQs under handles 1 and 2, for
the constants `uapi0`. -/
def catalog0 : Table :=
  Function.update (Function.update (Function.update objects_empty
    (objects_cell 0 0) 101) (objects_cell 2 1) 102) (objects_cell 2 2) 103

/-- A restore state with the catalog `catalog0` and no call made yet. -/
def state0 : RestoreState := { objects := catalog0, trace := [] }

/-- A QP entry: RC, handle 3, `qp_num = 0x100`, target state RTS, no SRQ. -/
def qp_entry0 : IbverbsObject :=
  { type := 3, handle := 3,
    qp := { pd_handle := 0, scq_handle := 1, rcq_handle := 2, srq_handle := 4294967295,
            qp_type := 2, qp_num := 0x100, qp_state := 3 } }

/-- An MR entry: handle 1, `mrn = 42`, under the PD of handle 0. -/
def mr_entry0 : IbverbsObject :=
  { type := 1, handle := 1,
    mr := { address := 0x400000, length := 0x2000, pd_handle := 0, lkey := 0xAAAA,
            rkey := 0xBBBB, mrn := 42 } }

/-- The MR that the environment returns to the `ibv_reg_mr` call of
`ibverbs_restore_mr` run from the state `s`. -/
def mr_registered (u : Uapi) (k : Kernel) (s : RestoreState) (mr : IbverbsMr) : VerbsObj :=
  k.ibv_reg_mr (s.trace ++ [Ev.pread CR_IBVERBS_RXE_MRN,
    Ev.pwrite CR_IBVERBS_RXE_MRN (sub32 mr.mrn 1),
    Ev.ibv_reg_mr (ibverbs_get_object s.objects u.IB_UVERBS_OBJECT_PD (to_int mr.pd_handle))
      mr.address mr.length mr.access])

/-- The values of `qp_state` requested by a list of transitions. -/
def requested_states (l : List (ibv_qp_attr × Finset QpAttrMask)) : List Nat :=
  l.map (fun a => a.1.qp_state)

/-- The fixed size of the dump record of a tag: `sizeof` of the struct of its
kind, and `none` for a tag outside PD, MR, CQ, QP (the cases of the `switch`
of `dump_one_ibverbs`, in their order). -/
def record_size (u : Uapi) (type : Nat) : Option Nat :=
  if type = u.IB_UVERBS_OBJECT_PD then some u.sizeof_dump_pd
  else if type = u.IB_UVERBS_OBJECT_MR then some u.sizeof_dump_mr
  else if type = u.IB_UVERBS_OBJECT_CQ then some u.sizeof_dump_cq
  else if type = u.IB_UVERBS_OBJECT_QP then some u.sizeof_dump_qp
  else none

/-- A record header is well formed when its tag is one of PD, MR, CQ, QP and
its `size` field is the fixed size of that kind. -/
def record_ok (u : Uapi) (obj : ib_uverbs_dump_object) : Prop :=
  record_size u obj.type = some obj.size

instance (u : Uapi) (obj : ib_uverbs_dump_object) : Decidable (record_ok u obj) := by
  unfold record_ok
  infer_instance

/-- Every step of `dump_one_ibverbs` before the decoding loop succeeds: the
regular-file dump, the device lookup, the reopen, the allocation of the dump
buffer, the dump call and the allocation of `ibv.objs`. -/
def reaches_loop (env : DumpEnv) : Prop :=
  env.dump_one_reg_file = 0 ∧ env.find_ibdev ≠ 0 ∧ env.ibv_reopen_device ≠ 0 ∧
  env.xzalloc_dump ≠ 0 ∧ env.ibv_dump_context = 0 ∧ env.xzalloc_objs ≠ 0

instance (env : DumpEnv) : Decidable (reaches_loop env) := by
  unfold reaches_loop
  infer_instance

/-- The half-open ranges `[start, end)` of a VMA and
`[address, address + length)` of an MR have a byte in common. -/
def vma_intersects (vma : VmaEntry) (address length : Nat) : Prop :=
  max vma.start address < min vma.end_ (address + length)

instance (vma : VmaEntry) (address length : Nat) : Decidable (vma_intersects vma address length) := by
  unfold vma_intersects
  infer_instance

/-- A dump buffer with a PD record of handle 0 at offset 0 and an MR record of
handle 1 at offset 12, for the sizes of `uapi0`. -/
def dump_pd_mr : DumpBuf := fun o =>
  if o = 0 then { obj := { type := 0, size := 12, handle := 0 } }
  else if o = 12 then
    { obj := { type := 1, size := 48, handle := 1 },
      mr := { address := 0x400000, length := 0x2000, pd_handle := 0, lkey := 0xAAAA,
              rkey := 0xBBBB, rxe_mrn := 42 } }
  else {}

/-- A dump buffer filled up to offset 4080 with 340 PD records of 12 bytes,
followed at offset 4080 by the header of an MR record that declares the MR
size 48 of `uapi0`: the header lies inside the 4096 bytes of the buffer, the
record ends at 4128. -/
def dump_pd_340_mr : DumpBuf := fun o =>
  if o < 4080 then { obj := { type := 0, size := 12, handle := 0 } }
  else if o = 4080 then { obj := { type := 1, size := 48, handle := 1 } }
  else {}

/-- An environment of `dump_one_ibverbs` in which every collaborator succeeds
and the dump call returns `count` objects in the buffer `dump`. -/
def dump_env_ok (count : Int) (dump : DumpBuf) : DumpEnv where
  dump_one_reg_file := 0
  find_ibdev := 1
  ibv_reopen_device := 1
  xzalloc_dump := 1
  ibv_dump_context := 0
  count := count
  dump := dump
  xzalloc_objs := 1
  record_alloc := fun _ => true
  pb_write_one := 0

/-- An environment like `kernel_ok` in which `ibv_reg_mr` returns `NULL`. -/
def kernel_reg_mr_fails (knob : Nat) : Kernel :=
  { kernel_ok {} knob with ibv_reg_mr := fun _ => { ptr := 0 } }

/-- An environment like `kernel_ok` in which `ibv_restore_object` fails. -/
def kernel_restore_object_fails (knob : Nat) : Kernel :=
  { kernel_ok {} knob with ibv_restore_object := fun _ => (-1, {}) }

/-- A QP dump record with `path_mtu = 3` and `min_rnr_timer = 12`, of the
size of `uapi0`. -/
def dump_qp0 : ib_uverbs_dump_object_qp :=
  { pd_handle := 0, qp_type := 2, srq_handle := 4294967295, qp_num := 0x100,
    rcq_handle := 2, scq_handle := 1,
    attr := { qp_state := 3, path_mtu := 3, min_rnr_timer := 12 } }

/-! ## Device lookup -/

/-- The part of `struct ibv_device` that the code uses: the address of the
struct and the name returned by `ibv_get_device_name`. -/
structure ibv_device where
  ptr : Nat
  name : String
  deriving DecidableEq, Repr

/-- The collaborators of `init_ibverbs`: the array returned by
`ibv_get_device_list` (`none` for `NULL`, otherwise the devices before the
`NULL` terminator; `num_dev` is set to their number, and to 0 with `NULL`),
and the return values of the two `open` and the two `install_service_fd`
calls of `install_rxe_service`. -/
structure DevEnv where
  ibv_get_device_list : Option (List ibv_device)
  open_last_qpn : Int
  install_qpn : Int
  open_last_mrn : Int
  install_mrn : Int

/-- The statics `dev_list` and `num_dev`. The pointer `dev_list` is `none`
when it is `NULL`; otherwise it points at element `i` of the array `devices`
that `ibv_get_device_list` returned, element `devices.length` being the
`NULL` terminator. -/
structure DevState where
  devices : List ibv_device
  dev_list : Option Nat
  num_dev : Int
  deriving DecidableEq, Repr

/-- Source function `install_rxe_service`. -/
def install_rxe_service (env : DevEnv) : Int :=
  if env.open_last_qpn < 0 then -1
  else if env.install_qpn < 0 then -1
  else if env.open_last_mrn < 0 then -1
  else if env.install_mrn < 0 then -1
  else 0

/-- Source function `init_ibverbs`: the return value and the statics. -/
def init_ibverbs (env : DevEnv) : Int × DevState :=
  match env.ibv_get_device_list with
  | none => (-1, { devices := [], dev_list := none, num_dev := 0 })
  | some l =>
    if (l.length : Int) ≤ 0 then (-1, { devices := l, dev_list := some 0, num_dev := l.length })
    else (install_rxe_service env, { devices := l, dev_list := some 0, num_dev := l.length })

/-- The loop `for (; (ib_dev = *dev_list); ++dev_list)` of `find_ibdev` over
the devices from the position of `dev_list`, which is the second argument:
the device at which the loop stops (`none` at the terminator) and the
position at which it leaves `dev_list`. -/
def find_ibdev_scan : List ibv_device → Nat → String → Option ibv_device × Nat
  | [], i, _ => (none, i)
  | d :: rest, i, name => if d.name = name then (some d, i) else find_ibdev_scan rest (i + 1) name

/-- Source function `find_ibdev(ib_devname)`: the device returned (`none` for
`NULL`) and the statics after the call; `ib_devname` is `none` for `NULL`. -/
def find_ibdev (env : DevEnv) (st : DevState) (ib_devname : Option String) :
    Option ibv_device × DevState :=
  let r := if st.dev_list = none then init_ibverbs env else (0, st)
  if r.1 ≠ 0 then (none, r.2)
  else
    match r.2.dev_list with
    | none => (none, r.2)
    | some i =>
      match ib_devname with
      | none => (r.2.devices.get? i, r.2)
      | some name =>
        ((find_ibdev_scan (r.2.devices.drop i) i name).1,
         { r.2 with dev_list := some (find_ibdev_scan (r.2.devices.drop i) i name).2 })

/-- The text that the conversion `%d` of `snprintf` produces for a `uint32_t`
argument: the decimal digits of the `int` with the same 32 bits, after a
minus sign when that `int` is negative. -/
def format_d (new_val : Nat) : List Char :=
  if to_int new_val < 0 then '-' :: Nat.toDigits 10 (to_int new_val).natAbs
  else Nat.toDigits 10 (to_int new_val).toNat

/-- The string left in `buf` by `snprintf(buf, sizeof(buf), "%d\n", new_val)`
with the 32-byte buffer: at most 31 characters before the terminating zero. -/
def knob_buf (new_val : Nat) : List Char := (format_d new_val ++ ['\n']).take 31

/-- The white-space characters of `isspace`. -/
def is_space (c : Char) : Bool :=
  c = ' ' || c = '\t' || c = '\n' || c = Char.ofNat 11 || c = Char.ofNat 12 || c = '\r'

/-- The number written by a string of decimal digits. -/
def digits_value (ds : List Char) : Nat := ds.foldl (fun a c => 10 * a + (c.toNat - 48)) 0

/-- The conversion `sscanf(buf, "%u", old_val)` of the C library on the
string `buf`: white space is skipped, a sign is accepted, and the decimal
digits that follow are converted; `none` when there is no digit (the call
does not return 1), otherwise the `uint32_t` stored, which is the number
modulo `2^32`, negated modulo `2^32` after a minus sign. -/
def sscanf_u (buf : List Char) : Option Nat :=
  let s := buf.dropWhile is_space
  let s1 := if s.head? = some '-' ∨ s.head? = some '+' then s.tail else s
  let ds := s1.takeWhile Char.isDigit
  if ds = [] then none
  else if s.head? = some '-' then some (sub32 0 (digits_value ds))
  else some (digits_value ds % 2 ^ 32)

/-- The file operations of one call of `rxe_set_parameter`: `pread` is `none`
when the read fails and otherwise the string that `buf` holds after it (the
bytes of the file, then what the buffer held before, up to the first zero);
`pwrite` is the return value of the write. -/
structure KnobFile where
  pread : Option (List Char)
  pwrite : Int

/-- Result of `rxe_set_parameter` at the level of bytes: the return value,
the `uint32_t` behind `old_val` after the call and the bytes handed to
`pwrite` (`none` when `pwrite` is not called). -/
structure KnobBytes where
  ret : Int
  old_val : Option Nat
  written : Option (List Char)
  deriving DecidableEq, Repr

/-- Source function `rxe_set_parameter(fd, new_val, old_val)` with the bytes
that it reads and writes: `pread` and `sscanf` with `%u` when `old_val` is not
`NULL`, then `snprintf` with `%d` and a newline, and `pwrite` of the
`strlen(buf)` bytes of the buffer. -/
def rxe_set_parameter_bytes (io : KnobFile) (new_val : Nat) (old_val : Option Nat) :
    KnobBytes :=
  match old_val with
  | some old =>
    match io.pread with
    | none => { ret := -1, old_val := some old, written := none }
    | some buf =>
      match sscanf_u buf with
      | none => { ret := -1, old_val := some old, written := none }
      | some v =>
        if io.pwrite < 0 then
          { ret := -1, old_val := some v, written := some (knob_buf new_val) }
        else { ret := 0, old_val := some v, written := some (knob_buf new_val) }
  | none =>
    if io.pwrite < 0 then { ret := -1, old_val := none, written := some (knob_buf new_val) }
    else { ret := 0, old_val := none, written := some (knob_buf new_val) }

/-- The outcome of `pread` and `sscanf` on a knob, from the bytes read. -/
def knob_read_of (pread : Option (List Char)) : KnobRead :=
  match pread with
  | none => KnobRead.fail
  | some buf =>
    match sscanf_u buf with
    | none => KnobRead.noparse
    | some v => KnobRead.val v

/-! # Theorems -/

/-! ## Properties of the object catalog -/

theorem to_int_of_lt {h : Nat} (hh : h < 2 ^ 31) : to_int h = (h : Int) := by
  unfold to_int
  have h1 : h % 2 ^ 32 = h := Nat.mod_eq_of_lt (by omega)
  rw [h1, if_pos hh]

/-- Supporting lemma for C2: for handles below `2^31` the catalog behaves as
a bounded table. The call fails exactly when the slot is occupied or the
handle is not below `ELEM_COUNT`, a failure leaves the table unchanged, a
success changes only the slot of `(kind, h)` and the stored pointer is then
returned by `ibverbs_get_object`, which returns `NULL` on an empty slot and on
a handle not below `ELEM_COUNT`. -/
theorem remember_object_small_handle (t : Table) (kind : Int) (h p : Nat) (hh : h < 2 ^ 31) :
    ((ibverbs_remember_object t kind (to_int h) p).1 ≠ 0 ↔
        (t (objects_cell kind h) ≠ 0 ∨ ¬ (h : Int) < ELEM_COUNT)) ∧
    ((ibverbs_remember_object t kind (to_int h) p).1 ≠ 0 →
        (ibverbs_remember_object t kind (to_int h) p).2 = t) ∧
    ((ibverbs_remember_object t kind (to_int h) p).1 = 0 →
        (ibverbs_remember_object t kind (to_int h) p).2
            = Function.update t (objects_cell kind h) p ∧
        ibverbs_get_object (ibverbs_remember_object t kind (to_int h) p).2 kind (to_int h)
            = p) ∧
    ((t (objects_cell kind h) = 0 ∨ ¬ (h : Int) < ELEM_COUNT) →
        ibverbs_get_object t kind (to_int h) = 0) := by
  rw [to_int_of_lt hh]
  unfold ibverbs_remember_object ibverbs_get_object
  by_cases h1 : (h : Int) ≥ ELEM_COUNT
  · simp [h1, ENOMEM]
  · by_cases h2 : t (objects_cell kind h) = 0
    · simp [h1, h2]
    · simp [h1, h2, EINVAL]

/-- C2 (failing input): the handle `0xFFFFFFFF` is not below `ELEM_COUNT`, yet
`ibverbs_remember_object` on the empty table does not fail: the handle arrives
as the `int` `-1`, passes the test `id >= ELEM_COUNT`, and the pointer is
stored in the cell before row 1, which is the cell of slot `(0, 9)`; and
`ibverbs_get_object` with that handle returns that pointer instead of
`NULL`. -/
theorem remember_object_high_handle :
    ¬ ((4294967295 : Int) < ELEM_COUNT) ∧
    to_int 4294967295 = -1 ∧
    (ibverbs_remember_object objects_empty 1 (to_int 4294967295) 7).1 = 0 ∧
    (ibverbs_remember_object objects_empty 1 (to_int 4294967295) 7).2 (objects_cell 0 9) = 7 ∧
    ibverbs_get_object (Function.update objects_empty (objects_cell 0 9) 7) 1
      (to_int 4294967295) = 7 := by
  refine ⟨by decide, by decide, ?_, ?_, ?_⟩
  · simp [ibverbs_remember_object, to_int, ELEM_COUNT, objects_empty]
  · simp [ibverbs_remember_object, to_int, ELEM_COUNT, objects_empty, objects_cell]
  · simp [ibverbs_get_object, to_int, ELEM_COUNT, objects_cell]

/-! ## Properties of the knobs -/

theorem rxe_set_parameter_null (k : Kernel) (tr : List Ev) (fd : Knob) (v : Nat) :
    (rxe_set_parameter k tr fd v none).trace = tr ++ [Ev.pwrite fd v] ∧
    (rxe_set_parameter k tr fd v none).old_val = none ∧
    ((rxe_set_parameter k tr fd v none).ret = 0 ∨ (rxe_set_parameter k tr fd v none).ret = -1) := by
  unfold rxe_set_parameter
  by_cases h : k.pwrite (tr ++ [Ev.pwrite fd v]) < 0 <;> simp [h]

theorem rxe_set_parameter_read (k : Kernel) (tr : List Ev) (fd : Knob) (v o : Nat)
    (h : ¬ (rxe_set_parameter k tr fd v (some o)).ret < 0) :
    ∃ w, k.pread (tr ++ [Ev.pread fd]) = KnobRead.val w ∧
      (rxe_set_parameter k tr fd v (some o)).old_val = some (w % 2 ^ 32) ∧
      (rxe_set_parameter k tr fd v (some o)).trace = tr ++ [Ev.pread fd, Ev.pwrite fd v] := by
  unfold rxe_set_parameter at h ⊢
  cases hr : k.pread (tr ++ [Ev.pread fd]) with
  | fail => simp [hr] at h
  | noparse => simp [hr] at h
  | val w =>
    by_cases hw : k.pwrite (tr ++ [Ev.pread fd, Ev.pwrite fd v]) < 0
    · simp [hr, hw] at h
    · simp [hr, hw]

theorem rxe_set_last_mrn_read (k : Kernel) (tr : List Ev) (v o : Nat)
    (h : ¬ (rxe_set_last_mrn k tr v (some o)).ret < 0) :
    ∃ w, k.pread (tr ++ [Ev.pread CR_IBVERBS_RXE_MRN]) = KnobRead.val w ∧
      (rxe_set_last_mrn k tr v (some o)).old_val = some (w % 2 ^ 32) ∧
      (rxe_set_last_mrn k tr v (some o)).trace
        = tr ++ [Ev.pread CR_IBVERBS_RXE_MRN, Ev.pwrite CR_IBVERBS_RXE_MRN v] := by
  unfold rxe_set_last_mrn at h ⊢
  by_cases hr : (rxe_set_parameter k tr CR_IBVERBS_RXE_MRN v (some o)).ret < 0
  · simp [hr] at h
  · obtain ⟨w, h1, h2, h3⟩ := rxe_set_parameter_read k tr _ v o hr
    exact ⟨w, h1, by simp [hr, h2], by simp [hr, h3]⟩

theorem rxe_set_last_mrn_null (k : Kernel) (tr : List Ev) (v : Nat) :
    (rxe_set_last_mrn k tr v none).trace = tr ++ [Ev.pwrite CR_IBVERBS_RXE_MRN v] := by
  unfold rxe_set_last_mrn
  by_cases hr : (rxe_set_parameter k tr CR_IBVERBS_RXE_MRN v none).ret < 0 <;>
    simp [hr, (rxe_set_parameter_null k tr CR_IBVERBS_RXE_MRN v).1]

theorem rxe_set_last_qpn_read (k : Kernel) (tr : List Ev) (qpn o : Nat)
    (h : ¬ (rxe_set_last_qpn k tr qpn (some o)).ret < 0) :
    ∃ w, k.pread (tr ++ [Ev.pread CR_IBVERBS_RXE_QPN]) = KnobRead.val w ∧
      (rxe_set_last_qpn k tr qpn (some o)).old_val = some (add32 (w % 2 ^ 32) 16) ∧
      (rxe_set_last_qpn k tr qpn (some o)).trace
        = tr ++ [Ev.pread CR_IBVERBS_RXE_QPN, Ev.pwrite CR_IBVERBS_RXE_QPN (sub32 qpn 16)] := by
  unfold rxe_set_last_qpn at h ⊢
  by_cases hr : (rxe_set_parameter k tr CR_IBVERBS_RXE_QPN (sub32 qpn 16) (some o)).ret < 0
  · simp [hr] at h
  · obtain ⟨w, h1, h2, h3⟩ := rxe_set_parameter_read k tr _ (sub32 qpn 16) o hr
    exact ⟨w, h1, by simp [hr, h2], by simp [hr, h3]⟩

theorem rxe_set_last_qpn_null (k : Kernel) (tr : List Ev) (qpn : Nat) :
    (rxe_set_last_qpn k tr qpn none).trace
      = tr ++ [Ev.pwrite CR_IBVERBS_RXE_QPN (sub32 qpn 16)] := by
  unfold rxe_set_last_qpn
  by_cases hr : (rxe_set_parameter k tr CR_IBVERBS_RXE_QPN (sub32 qpn 16) none).ret < 0 <;>
    simp [hr, (rxe_set_parameter_null k tr CR_IBVERBS_RXE_QPN (sub32 qpn 16)).1]

theorem sub32_add32_cancel (v : Nat) : sub32 (add32 (v % 2 ^ 32) 16) 16 = v % 2 ^ 32 := by
  unfold sub32 add32
  norm_num
  omega

/-- C10: when the knob reads `v` and the write is accepted,
`rxe_set_last_qpn(qpn, &old)` returns 0, performs one read and then one write
of `qpn - 16` on the `last_qpn` knob and leaves `v + 16` in `old`, both modulo
`2^32`; with `old = NULL` its only access is the write of `qpn - 16`; and for
`qpn = 0x100` the value written is `0xF0`. -/
theorem rxe_set_last_qpn_spec (k : Kernel) (tr : List Ev) (qpn v o : Nat)
    (hread : k.pread (tr ++ [Ev.pread CR_IBVERBS_RXE_QPN]) = KnobRead.val v)
    (hwrite : ¬ k.pwrite (tr ++ [Ev.pread CR_IBVERBS_RXE_QPN,
      Ev.pwrite CR_IBVERBS_RXE_QPN (sub32 qpn 16)]) < 0) :
    (rxe_set_last_qpn k tr qpn (some o)).ret = 0 ∧
    (rxe_set_last_qpn k tr qpn (some o)).old_val = some (add32 v 16) ∧
    (rxe_set_last_qpn k tr qpn (some o)).trace
      = tr ++ [Ev.pread CR_IBVERBS_RXE_QPN, Ev.pwrite CR_IBVERBS_RXE_QPN (sub32 qpn 16)] ∧
    (rxe_set_last_qpn k tr qpn none).trace
      = tr ++ [Ev.pwrite CR_IBVERBS_RXE_QPN (sub32 qpn 16)] ∧
    ((sub32 qpn 16 : Nat) : Int) = ((qpn : Int) - 16) % 2 ^ 32 ∧
    ((add32 v 16 : Nat) : Int) = ((v : Int) + 16) % 2 ^ 32 ∧
    sub32 0x100 16 = 0xF0 := by
  refine ⟨?_, ?_, ?_, rxe_set_last_qpn_null k tr qpn, ?_, ?_, by decide⟩
  · simp [rxe_set_last_qpn, rxe_set_parameter, hread, hwrite]
  · simp [rxe_set_last_qpn, rxe_set_parameter, hread, hwrite, add32]
  · simp [rxe_set_last_qpn, rxe_set_parameter, hread, hwrite]
  · unfold sub32
    norm_num
    omega
  · unfold add32
    norm_num

/-- C10 (witness): with the knob at 1000 and `qp_num = 0x100`, the call writes
`0xF0` and returns `old = 1016`. -/
theorem rxe_set_last_qpn_spec_witness :
    (rxe_set_last_qpn (kernel_ok {} 1000) [] 0x100 (some 0)).ret = 0 ∧
    (rxe_set_last_qpn (kernel_ok {} 1000) [] 0x100 (some 0)).old_val = some 1016 ∧
    (rxe_set_last_qpn (kernel_ok {} 1000) [] 0x100 (some 0)).trace
      = [Ev.pread CR_IBVERBS_RXE_QPN, Ev.pwrite CR_IBVERBS_RXE_QPN 0xF0] :=
  have h := rxe_set_last_qpn_spec (kernel_ok {} 1000) [] 0x100 1000 0 rfl (by decide)
  ⟨h.1, h.2.1, h.2.2.1⟩

theorem restore_qp_states_break (k : Kernel) (tr : List Ev) (qp : IbverbsQp) (q : VerbsObj)
    (h : (ibverbs_restore_qp_states k tr qp q).1 = none) :
    qp.qp_state ≤ 3 ∧ (qp.qp_state ≠ 0 → qp.qp_type = IB_QPT_RC) ∧
    (ibverbs_restore_qp_states k tr qp q).2
      = tr ++ modify_events q.ptr ((qp_transitions qp).take qp.qp_state) := by
  unfold ibverbs_restore_qp_states at h ⊢
  simp only [IB_QPS_RESET, IB_QPS_INIT, IB_QPS_RTR, IB_QPS_RTS] at h ⊢
  split_ifs at h ⊢ <;> simp_all [qp_transitions, modify_events]

theorem restore_qp_states_ret (k : Kernel) (tr : List Ev) (qp : IbverbsQp) (q : VerbsObj) (r : Int)
    (h : (ibverbs_restore_qp_states k tr qp q).1 = some r) : r = -1 := by
  unfold ibverbs_restore_qp_states at h
  simp only [] at h
  split_ifs at h <;> simp at h <;> omega

theorem restore_qp_tail_success (u : Uapi) (k : Kernel) (objects : Table) (tr : List Ev)
    (qp : IbverbsQp) (q : VerbsObj)
    (h : (ibverbs_restore_qp_tail u k objects tr qp q).1 = 0) :
    qp.qp_state ≤ 3 ∧ (qp.qp_state ≠ 0 → qp.qp_type = IB_QPT_RC) ∧
    (ibverbs_restore_qp_tail u k objects tr qp q).2.objects = objects ∧
    (ibverbs_restore_qp_tail u k objects tr qp q).2.trace
      = tr ++ keep_events qp ++ modify_events q.ptr ((qp_transitions qp).take qp.qp_state)
        ++ [Ev.ibv_restore_object q.ptr u.IB_UVERBS_OBJECT_QP
              (IBV_RESTORE_QP_REFILL (qp_refill_args qp))] := by
  unfold ibverbs_restore_qp_tail at h ⊢
  simp only [] at h ⊢
  generalize htr2 : (if qp.sq_size > 0 then
      (if qp.rq_size > 0 then tr ++ [Ev.keep_address_range qp.rq_start qp.rq_size] else tr)
        ++ [Ev.keep_address_range qp.sq_start qp.sq_size]
      else if qp.rq_size > 0 then tr ++ [Ev.keep_address_range qp.rq_start qp.rq_size]
        else tr) = tr2 at h ⊢
  have e2 : tr2 = tr ++ keep_events qp := by
    rw [← htr2]
    unfold keep_events
    by_cases hr : qp.rq_size > 0 <;> by_cases hs : qp.sq_size > 0 <;> simp [hr, hs]
  by_cases h1 : qp.rq_size > 0 ∧ k.keep_address_range
      (if qp.rq_size > 0 then tr ++ [Ev.keep_address_range qp.rq_start qp.rq_size] else tr) ≠ 0
  · rw [if_pos h1] at h
    simp at h
  · rw [if_neg h1] at h ⊢
    by_cases h2 : qp.sq_size > 0 ∧ k.keep_address_range tr2 ≠ 0
    · rw [if_pos h2] at h
      simp at h
    · rw [if_neg h2] at h ⊢
      cases hw : (ibverbs_restore_qp_states k tr2 qp q).1 with
      | some r =>
        have := restore_qp_states_ret k _ qp q r hw
        simp [hw, this] at h
      | none =>
        obtain ⟨a, b, c⟩ := restore_qp_states_break k _ qp q hw
        refine ⟨a, b, ?_⟩
        simp only [hw, c] at h ⊢
        split_ifs at h ⊢ with h4
        · simp at h
        · exact ⟨rfl, by simp [e2]⟩

theorem restore_qp_success (u : Uapi) (k : Kernel) (s : RestoreState) (obj : IbverbsObject)
    (h : (ibverbs_restore_qp u k s obj).1 = 0) :
    ∃ w, k.pread (s.trace ++ [Ev.pread CR_IBVERBS_RXE_QPN]) = KnobRead.val w ∧
      ibverbs_get_object s.objects u.IB_UVERBS_OBJECT_PD (to_int obj.qp.pd_handle) ≠ 0 ∧
      ibverbs_get_object s.objects u.IB_UVERBS_OBJECT_CQ (to_int obj.qp.scq_handle) ≠ 0 ∧
      ibverbs_get_object s.objects u.IB_UVERBS_OBJECT_CQ (to_int obj.qp.rcq_handle) ≠ 0 ∧
      obj.qp.srq_handle = UINT32_MAX ∧
      (qp_created u k s obj.qp).qp_num = obj.qp.qp_num ∧
      obj.qp.qp_state ≤ 3 ∧ (obj.qp.qp_state ≠ 0 → obj.qp.qp_type = IB_QPT_RC) ∧
      (ibverbs_restore_qp u k s obj).2.objects = s.objects ∧
      (ibverbs_restore_qp u k s obj).2.trace
        = s.trace ++ [Ev.pread CR_IBVERBS_RXE_QPN,
            Ev.pwrite CR_IBVERBS_RXE_QPN (sub32 obj.qp.qp_num 16),
            qp_create_event u s.objects obj.qp,
            Ev.pwrite CR_IBVERBS_RXE_QPN (w % 2 ^ 32)]
          ++ keep_events obj.qp
          ++ modify_events (qp_created u k s obj.qp).ptr
              ((qp_transitions obj.qp).take obj.qp.qp_state)
          ++ [Ev.ibv_restore_object (qp_created u k s obj.qp).ptr u.IB_UVERBS_OBJECT_QP
                (IBV_RESTORE_QP_REFILL (qp_refill_args obj.qp))] := by
  unfold ibverbs_restore_qp at h ⊢
  simp only [] at h ⊢
  by_cases c1 : ibverbs_get_object s.objects u.IB_UVERBS_OBJECT_PD (to_int obj.qp.pd_handle) = 0
  · rw [if_pos c1] at h; simp at h
  rw [if_neg c1] at h ⊢
  by_cases c2 : ibverbs_get_object s.objects u.IB_UVERBS_OBJECT_CQ (to_int obj.qp.scq_handle) = 0
  · rw [if_pos c2] at h; simp at h
  rw [if_neg c2] at h ⊢
  by_cases c3 : ibverbs_get_object s.objects u.IB_UVERBS_OBJECT_CQ (to_int obj.qp.rcq_handle) = 0
  · rw [if_pos c3] at h; simp at h
  rw [if_neg c3] at h ⊢
  by_cases c4 : obj.qp.srq_handle ≠ UINT32_MAX
  · rw [if_pos c4] at h; simp [ENOTSUP] at h
  rw [if_neg c4] at h ⊢
  by_cases c5 : (rxe_set_last_qpn k s.trace obj.qp.qp_num (some 0)).ret < 0
  · rw [if_pos c5] at h; simp at h
  rw [if_neg c5] at h ⊢
  obtain ⟨w, hw1, hw2, hw3⟩ := rxe_set_last_qpn_read k s.trace obj.qp.qp_num 0 c5
  simp only [hw2, hw3, Option.getD_some, List.append_assoc, List.cons_append,
    List.nil_append, rxe_set_last_qpn_null] at h ⊢
  have hc : qp_created u k s obj.qp = (k.ibv_restore_object (s.trace ++
      [Ev.pread CR_IBVERBS_RXE_QPN, Ev.pwrite CR_IBVERBS_RXE_QPN (sub32 obj.qp.qp_num 16),
        Ev.ibv_restore_object 0 u.IB_UVERBS_OBJECT_QP (IBV_RESTORE_QP_CREATE (qp_create_args obj.qp
          (ibverbs_get_object s.objects u.IB_UVERBS_OBJECT_PD (to_int obj.qp.pd_handle))
          (ibverbs_get_object s.objects u.IB_UVERBS_OBJECT_CQ (to_int obj.qp.scq_handle))
          (ibverbs_get_object s.objects u.IB_UVERBS_OBJECT_CQ
            (to_int obj.qp.rcq_handle))))])).2 := rfl
  rw [← hc] at h ⊢
  split_ifs at h ⊢ with c6 c7 c8
  · simp at h
  · simp at h
  · simp at h
  · obtain ⟨a, b, c, d⟩ := restore_qp_tail_success u k _ _ _ _ h
    refine ⟨w, hw1, c1, c2, c3, not_not.mp c4, not_not.mp c7, a, b, c, ?_⟩
    rw [d, sub32_add32_cancel]
    simp [qp_create_event]

theorem restore_mr_success (u : Uapi) (k : Kernel) (s : RestoreState) (obj : IbverbsObject)
    (h : (ibverbs_restore_mr u k s obj).1 = 0) :
    ∃ w, k.pread (s.trace ++ [Ev.pread CR_IBVERBS_RXE_MRN]) = KnobRead.val w ∧
      ibverbs_get_object s.objects u.IB_UVERBS_OBJECT_PD (to_int obj.mr.pd_handle) ≠ 0 ∧
      (mr_registered u k s obj.mr).ptr ≠ 0 ∧
      (ibverbs_restore_mr u k s obj).2.trace
        = s.trace ++ [Ev.pread CR_IBVERBS_RXE_MRN,
            Ev.pwrite CR_IBVERBS_RXE_MRN (sub32 obj.mr.mrn 1),
            Ev.ibv_reg_mr
              (ibverbs_get_object s.objects u.IB_UVERBS_OBJECT_PD (to_int obj.mr.pd_handle))
              obj.mr.address obj.mr.length obj.mr.access,
            Ev.pwrite CR_IBVERBS_RXE_MRN (w % 2 ^ 32),
            Ev.ibv_restore_object (mr_registered u k s obj.mr).ptr u.IB_UVERBS_OBJECT_MR
              (IBV_RESTORE_MR_KEYS obj.mr.lkey obj.mr.rkey)] := by
  unfold ibverbs_restore_mr at h ⊢
  simp only [] at h ⊢
  by_cases c1 : ibverbs_get_object s.objects u.IB_UVERBS_OBJECT_PD (to_int obj.mr.pd_handle) = 0
  · rw [if_pos c1] at h; simp at h
  rw [if_neg c1] at h ⊢
  by_cases c5 : (rxe_set_last_mrn k s.trace (sub32 obj.mr.mrn 1) (some 0)).ret < 0
  · rw [if_pos c5] at h; simp at h
  rw [if_neg c5] at h ⊢
  obtain ⟨w, hw1, hw2, hw3⟩ := rxe_set_last_mrn_read k s.trace (sub32 obj.mr.mrn 1) 0 c5
  simp only [hw2, hw3, Option.getD_some, List.append_assoc, List.cons_append,
    List.nil_append, rxe_set_last_mrn_null] at h ⊢
  have hc : mr_registered u k s obj.mr = k.ibv_reg_mr (s.trace ++
      [Ev.pread CR_IBVERBS_RXE_MRN, Ev.pwrite CR_IBVERBS_RXE_MRN (sub32 obj.mr.mrn 1),
        Ev.ibv_reg_mr
          (ibverbs_get_object s.objects u.IB_UVERBS_OBJECT_PD (to_int obj.mr.pd_handle))
          obj.mr.address obj.mr.length obj.mr.access]) := rfl
  rw [← hc] at h ⊢
  split_ifs at h ⊢ with c6 c7 c8 c9
  · simp at h
  · simp at h
  · simp at h
  · simp at h
  · exact ⟨w, hw1, c1, c6, rfl⟩

/-! ## Properties of the restore pipeline -/

/-- Supporting lemma for C1: a successful `ibverbs_restore_pd` has checked the
handle, so the PD returned by `ibv_alloc_pd` has the recorded handle. -/
theorem restore_pd_handle (u : Uapi) (k : Kernel) (s : RestoreState) (obj : IbverbsObject)
    (h : (ibverbs_restore_pd u k s obj).1 = 0) :
    (k.ibv_alloc_pd (s.trace ++ [Ev.ibv_alloc_pd])).handle = obj.handle := by
  unfold ibverbs_restore_pd at h
  simp only [] at h
  split_ifs at h with c1 c2 c3
  · simp at h
  · simp at h
  · simp at h
  · exact not_not.mp c2

/-- C1 (failing inputs): the MR, CQ and QP restores return success although
the object created by the kernel has handle 2 while the entry records handle
1 (MR, CQ) or 3 (QP): none of the three compares the handles. The MR and the
CQ are then catalogued under the handle 2 of the created object and the slot
of the recorded handle stays empty. -/
theorem restore_handle_not_compared :
    (ibverbs_restore_mr uapi0 (kernel_ok { ptr := 201, handle := 2 } 1000) state0 mr_entry0).1 = 0 ∧
    (mr_registered uapi0 (kernel_ok { ptr := 201, handle := 2 } 1000) state0
      mr_entry0.mr).handle ≠ mr_entry0.handle ∧
    (ibverbs_restore_mr uapi0 (kernel_ok { ptr := 201, handle := 2 } 1000) state0
      mr_entry0).2.objects (objects_cell 1 2) = 201 ∧
    (ibverbs_restore_mr uapi0 (kernel_ok { ptr := 201, handle := 2 } 1000) state0
      mr_entry0).2.objects (objects_cell 1 1) = 0 ∧
    (ibverbs_restore_cq uapi0 (kernel_ok { ptr := 202, handle := 2 } 1000)
      { objects := objects_empty, trace := [] }
      { type := 2, handle := 1, cq := { cqe := 128, comp_channel := -1 } }).1 = 0 ∧
    (ibverbs_restore_cq uapi0 (kernel_ok { ptr := 202, handle := 2 } 1000)
      { objects := objects_empty, trace := [] }
      { type := 2, handle := 1, cq := { cqe := 128, comp_channel := -1 } }).2.objects
        (objects_cell 2 2) = 202 ∧
    (ibverbs_restore_qp uapi0 (kernel_ok { ptr := 203, handle := 2, qp_num := 0x100 } 1000)
      state0 qp_entry0).1 = 0 ∧
    (qp_created uapi0 (kernel_ok { ptr := 203, handle := 2, qp_num := 0x100 } 1000) state0
      qp_entry0.qp).handle ≠ qp_entry0.handle := by
  refine ⟨by decide, by decide, by decide, by decide, by decide, by decide, by decide, by decide⟩

/-- C3: after a successful `ibverbs_restore_mr` the call began with a read of
the `last_mrn` knob and the last value written to that knob during the call is
the value read (as the `uint32_t` it was stored in); after a successful
`ibverbs_restore_qp` the same holds for the `last_qpn` knob, the `+ 16` on the
value read and the `- 16` on the value written cancelling modulo `2^32`. -/
theorem knob_neutrality (u : Uapi) (k : Kernel) (s : RestoreState) (obj : IbverbsObject) :
    ((ibverbs_restore_mr u k s obj).1 = 0 →
      ∃ v evs, k.pread (s.trace ++ [Ev.pread CR_IBVERBS_RXE_MRN]) = KnobRead.val v ∧
        (ibverbs_restore_mr u k s obj).2.trace
          = s.trace ++ Ev.pread CR_IBVERBS_RXE_MRN :: evs ∧
        (knob_writes CR_IBVERBS_RXE_MRN evs).getLast? = some (v % 2 ^ 32)) ∧
    ((ibverbs_restore_qp u k s obj).1 = 0 →
      ∃ v evs, k.pread (s.trace ++ [Ev.pread CR_IBVERBS_RXE_QPN]) = KnobRead.val v ∧
        (ibverbs_restore_qp u k s obj).2.trace
          = s.trace ++ Ev.pread CR_IBVERBS_RXE_QPN :: evs ∧
        (knob_writes CR_IBVERBS_RXE_QPN evs).getLast? = some (v % 2 ^ 32)) := by
  constructor
  · intro h
    obtain ⟨w, h1, _, _, h4⟩ := restore_mr_success u k s obj h
    exact ⟨w, _, h1, h4, by simp [knob_writes]⟩
  · intro h
    obtain ⟨w, h1, _, _, _, _, _, _, _, _, h4⟩ := restore_qp_success u k s obj h
    refine ⟨w, [Ev.pwrite CR_IBVERBS_RXE_QPN (sub32 obj.qp.qp_num 16),
        qp_create_event u s.objects obj.qp, Ev.pwrite CR_IBVERBS_RXE_QPN (w % 2 ^ 32)]
        ++ keep_events obj.qp
        ++ modify_events (qp_created u k s obj.qp).ptr
            ((qp_transitions obj.qp).take obj.qp.qp_state)
        ++ [Ev.ibv_restore_object (qp_created u k s obj.qp).ptr u.IB_UVERBS_OBJECT_QP
              (IBV_RESTORE_QP_REFILL (qp_refill_args obj.qp))], h1, ?_, ?_⟩
    · rw [h4]
      simp only [List.append_assoc, List.cons_append, List.nil_append]
    · have e1 : knob_writes CR_IBVERBS_RXE_QPN (keep_events obj.qp) = [] := by
        unfold keep_events knob_writes
        by_cases hr : obj.qp.rq_size > 0 <;> by_cases hs : obj.qp.sq_size > 0 <;> simp [hr, hs]
      have e2 : ∀ p l, knob_writes CR_IBVERBS_RXE_QPN (modify_events p l) = [] := by
        intro p l
        unfold knob_writes modify_events
        induction l with
        | nil => rfl
        | cons a l ih => simp
      have e3 : ∀ a b : List Ev, knob_writes CR_IBVERBS_RXE_QPN (a ++ b)
          = knob_writes CR_IBVERBS_RXE_QPN a ++ knob_writes CR_IBVERBS_RXE_QPN b := by
        intro a b
        unfold knob_writes
        exact List.filterMap_append _ _ _
      have e4 : ∀ (e : Ev) (b : List Ev), knob_writes CR_IBVERBS_RXE_QPN (e :: b)
          = knob_writes CR_IBVERBS_RXE_QPN [e] ++ knob_writes CR_IBVERBS_RXE_QPN b := by
        intro e b
        exact e3 [e] b
      rw [e3, e3, e3, e1, e2]
      simp [knob_writes, qp_create_event]

/-- C3 (witness): the MR entry of handle 1 and the QP entry of handle 3 are
both restored with success with the knobs reading 1000, and the last value
written to each knob is 1000. -/
theorem knob_neutrality_witness :
    (knob_writes CR_IBVERBS_RXE_MRN
      (ibverbs_restore_mr uapi0 (kernel_ok { ptr := 201, handle := 1 } 1000) state0
        mr_entry0).2.trace).getLast? = some 1000 ∧
    (knob_writes CR_IBVERBS_RXE_QPN
      (ibverbs_restore_qp uapi0 (kernel_ok { ptr := 203, handle := 3, qp_num := 0x100 } 1000)
        state0 qp_entry0).2.trace).getLast? = some 1000 ∧
    (∃ v evs, (kernel_ok { ptr := 201, handle := 1 } 1000).pread
        (state0.trace ++ [Ev.pread CR_IBVERBS_RXE_MRN]) = KnobRead.val v ∧
      (ibverbs_restore_mr uapi0 (kernel_ok { ptr := 201, handle := 1 } 1000) state0
        mr_entry0).2.trace = state0.trace ++ Ev.pread CR_IBVERBS_RXE_MRN :: evs ∧
      (knob_writes CR_IBVERBS_RXE_MRN evs).getLast? = some (v % 2 ^ 32)) ∧
    (∃ v evs, (kernel_ok { ptr := 203, handle := 3, qp_num := 0x100 } 1000).pread
        (state0.trace ++ [Ev.pread CR_IBVERBS_RXE_QPN]) = KnobRead.val v ∧
      (ibverbs_restore_qp uapi0 (kernel_ok { ptr := 203, handle := 3, qp_num := 0x100 } 1000)
        state0 qp_entry0).2.trace = state0.trace ++ Ev.pread CR_IBVERBS_RXE_QPN :: evs ∧
      (knob_writes CR_IBVERBS_RXE_QPN evs).getLast? = some (v % 2 ^ 32)) :=
  ⟨by decide, by decide,
    (knob_neutrality uapi0 (kernel_ok { ptr := 201, handle := 1 } 1000) state0 mr_entry0).1
      (by decide),
    (knob_neutrality uapi0 (kernel_ok { ptr := 203, handle := 3, qp_num := 0x100 } 1000) state0
      qp_entry0).2 (by decide)⟩

/-- C6: when `ibverbs_restore_qp` returns success the target state is one of
RESET, INIT, RTR, RTS, and the calls of the run are: some calls among which is
`IBV_RESTORE_QP_CREATE` and none is `ibv_modify_qp`, then the first
`qp_state` transitions of the walk INIT, RTR, RTS (0 for RESET, 1 for INIT, 2
for RTR, 3 for RTS), then `IBV_RESTORE_QP_REFILL`. The three transitions
request the states INIT, RTR, RTS with the masks {STATE, PKEY_INDEX, PORT,
ACCESS_FLAGS}, {STATE, AV, PATH_MTU, DEST_QPN, RQ_PSN, MAX_DEST_RD_ATOMIC,
MIN_RNR_TIMER} and {STATE, SQ_PSN, MAX_QP_RD_ATOMIC, RETRY_CNT, RNR_RETRY,
TIMEOUT}; so the states RESET followed by the requested ones are a prefix of
RESET, INIT, RTR, RTS that ends at the target. -/
theorem qp_state_walk (u : Uapi) (k : Kernel) (s : RestoreState) (obj : IbverbsObject)
    (h : (ibverbs_restore_qp u k s obj).1 = 0) :
    obj.qp.qp_state ∈ [IB_QPS_RESET, IB_QPS_INIT, IB_QPS_RTR, IB_QPS_RTS] ∧
    (∃ pre,
      (ibverbs_restore_qp u k s obj).2.trace
        = s.trace ++ pre
          ++ modify_events (qp_created u k s obj.qp).ptr
              ((qp_transitions obj.qp).take obj.qp.qp_state)
          ++ [Ev.ibv_restore_object (qp_created u k s obj.qp).ptr u.IB_UVERBS_OBJECT_QP
                (IBV_RESTORE_QP_REFILL (qp_refill_args obj.qp))] ∧
      qp_create_event u s.objects obj.qp ∈ pre ∧
      modify_calls pre = [] ∧
      modify_calls (pre
          ++ modify_events (qp_created u k s obj.qp).ptr
              ((qp_transitions obj.qp).take obj.qp.qp_state)
          ++ [Ev.ibv_restore_object (qp_created u k s obj.qp).ptr u.IB_UVERBS_OBJECT_QP
                (IBV_RESTORE_QP_REFILL (qp_refill_args obj.qp))])
        = (qp_transitions obj.qp).take obj.qp.qp_state) ∧
    ((qp_transitions obj.qp).take obj.qp.qp_state).length = obj.qp.qp_state ∧
    (qp_transitions obj.qp).map (fun a => (a.1.qp_state, a.2))
      = [(IB_QPS_INIT, {IBV_QP_STATE, IBV_QP_PKEY_INDEX, IBV_QP_PORT, IBV_QP_ACCESS_FLAGS}),
         (IB_QPS_RTR, {IBV_QP_STATE, IBV_QP_AV, IBV_QP_PATH_MTU, IBV_QP_DEST_QPN, IBV_QP_RQ_PSN,
            IBV_QP_MAX_DEST_RD_ATOMIC, IBV_QP_MIN_RNR_TIMER}),
         (IB_QPS_RTS, {IBV_QP_STATE, IBV_QP_SQ_PSN, IBV_QP_MAX_QP_RD_ATOMIC, IBV_QP_RETRY_CNT,
            IBV_QP_RNR_RETRY, IBV_QP_TIMEOUT})] ∧
    (IB_QPS_RESET :: requested_states ((qp_transitions obj.qp).take obj.qp.qp_state))
      <+: [IB_QPS_RESET, IB_QPS_INIT, IB_QPS_RTR, IB_QPS_RTS] ∧
    (IB_QPS_RESET :: requested_states ((qp_transitions obj.qp).take obj.qp.qp_state)).getLast?
      = some obj.qp.qp_state := by
  obtain ⟨w, _, _, _, _, _, _, hst, _, _, htr⟩ := restore_qp_success u k s obj h
  have hmod : ∀ p l, modify_calls (modify_events p l) = l := by
    intro p l
    unfold modify_calls modify_events
    induction l with
    | nil => rfl
    | cons a l ih => simp [ih]
  have happ : ∀ a b : List Ev, modify_calls (a ++ b) = modify_calls a ++ modify_calls b := by
    intro a b
    unfold modify_calls
    exact List.filterMap_append _ _ _
  have hkeep : modify_calls (keep_events obj.qp) = [] := by
    unfold keep_events modify_calls
    by_cases hr : obj.qp.rq_size > 0 <;> by_cases hs : obj.qp.sq_size > 0 <;> simp [hr, hs]
  have hpre : modify_calls ([Ev.pread CR_IBVERBS_RXE_QPN,
      Ev.pwrite CR_IBVERBS_RXE_QPN (sub32 obj.qp.qp_num 16),
      qp_create_event u s.objects obj.qp, Ev.pwrite CR_IBVERBS_RXE_QPN (w % 2 ^ 32)]
      ++ keep_events obj.qp) = [] := by
    rw [happ, hkeep]
    simp [modify_calls, qp_create_event]
  refine ⟨?_, ⟨[Ev.pread CR_IBVERBS_RXE_QPN,
      Ev.pwrite CR_IBVERBS_RXE_QPN (sub32 obj.qp.qp_num 16),
      qp_create_event u s.objects obj.qp, Ev.pwrite CR_IBVERBS_RXE_QPN (w % 2 ^ 32)]
      ++ keep_events obj.qp, ?_, ?_, hpre, ?_⟩, ?_, ?_, ?_, ?_⟩
  · simp only [IB_QPS_RESET, IB_QPS_INIT, IB_QPS_RTR, IB_QPS_RTS, List.mem_cons,
      List.mem_singleton, List.not_mem_nil, or_false]
    omega
  · rw [htr]
    simp only [List.append_assoc]
  · simp
  · rw [happ, happ, hpre, hmod]
    simp [modify_calls]
  · simp [qp_transitions]
    omega
  · simp only [qp_transitions, List.map_cons, List.map_nil, qp_attr_init, qp_attr_rtr,
      qp_attr_rts]
    decide
  · have : obj.qp.qp_state = 0 ∨ obj.qp.qp_state = 1 ∨ obj.qp.qp_state = 2 ∨
        obj.qp.qp_state = 3 := by omega
    rcases this with e | e | e | e <;> rw [e] <;> exact ⟨_, rfl⟩
  · have : obj.qp.qp_state = 0 ∨ obj.qp.qp_state = 1 ∨ obj.qp.qp_state = 2 ∨
        obj.qp.qp_state = 3 := by omega
    rcases this with e | e | e | e <;> rw [e] <;> rfl

/-- C6 (witness): the RC QP entry with target RTS is restored with success and
its run makes the three `ibv_modify_qp` calls of the walk. -/
theorem qp_state_walk_witness :
    (ibverbs_restore_qp uapi0 (kernel_ok { ptr := 203, handle := 3, qp_num := 0x100 } 1000)
      state0 qp_entry0).1 = 0 ∧
    modify_calls (ibverbs_restore_qp uapi0
      (kernel_ok { ptr := 203, handle := 3, qp_num := 0x100 } 1000) state0 qp_entry0).2.trace
      = qp_transitions qp_entry0.qp ∧
    qp_entry0.qp.qp_state ∈ [IB_QPS_RESET, IB_QPS_INIT, IB_QPS_RTR, IB_QPS_RTS] :=
  ⟨by decide, by decide,
    (qp_state_walk uapi0 (kernel_ok { ptr := 203, handle := 3, qp_num := 0x100 } 1000) state0
      qp_entry0 (by decide)).1⟩

theorem dump_switch_ret (u : Uapi) (a : Bool) (v : DumpView) (vmas : List VmaEntry) :
    (dump_switch u a v vmas).1.ret = -1 ∨
    (record_ok u v.obj ∧ (dump_switch u a v vmas).1.ret = (v.obj.size : Int)) := by
  unfold dump_switch record_ok record_size dump_one_ibverbs_pd dump_one_ibverbs_mr
    dump_one_ibverbs_cq dump_one_ibverbs_qp
  split_ifs <;> simp_all

theorem dump_objs_loop_succ (u : Uapi) (d : DumpBuf) (ra : Nat → Bool) (n i : Nat) (r : Int)
    (st : DecodeState) :
    dump_objs_loop u d ra (n + 1) i r st
      = if (dump_switch u (ra i) (d st.cur_obj) st.vmas).1.ret < 0 then
          ((dump_switch u (ra i) (d st.cur_obj) st.vmas).1.ret,
            { st with vmas := (dump_switch u (ra i) (d st.cur_obj) st.vmas).2,
                      read := st.read ++ [st.cur_obj] })
        else
          dump_objs_loop u d ra n (i + 1) (dump_switch u (ra i) (d st.cur_obj) st.vmas).1.ret
            { cur_obj := st.cur_obj + (dump_switch u (ra i) (d st.cur_obj) st.vmas).1.ret.toNat,
              objs := st.objs ++ (dump_switch u (ra i) (d st.cur_obj) st.vmas).1.pb_obj.toList,
              vmas := (dump_switch u (ra i) (d st.cur_obj) st.vmas).2,
              read := st.read ++ [st.cur_obj] } := rfl

theorem dump_objs_loop_add (u : Uapi) (d : DumpBuf) (ra : Nat → Bool) :
    ∀ (a b i : Nat) (r : Int) (st : DecodeState),
      ¬ (dump_objs_loop u d ra a i r st).1 < 0 →
      dump_objs_loop u d ra (a + b) i r st
        = dump_objs_loop u d ra b (i + a) (dump_objs_loop u d ra a i r st).1
            (dump_objs_loop u d ra a i r st).2 := by
  intro a
  induction a with
  | zero => intro b i r st _; simp [dump_objs_loop]
  | succ a ih =>
    intro b i r st h
    have e : a + 1 + b = (a + b) + 1 := by omega
    rw [e, dump_objs_loop_succ u d ra (a + b) i r st]
    rw [dump_objs_loop_succ u d ra a i r st] at h ⊢
    by_cases c : (dump_switch u (ra i) (d st.cur_obj) st.vmas).1.ret < 0
    · rw [if_pos c] at h
      exact absurd c h
    · simp only [if_neg c] at h ⊢
      rw [ih b (i + 1) _ _ h]
      have e2 : i + 1 + a = i + (a + 1) := by omega
      rw [e2]

theorem dump_objs_loop_offset (u : Uapi) (d : DumpBuf) (ra : Nat → Bool) :
    ∀ (n i : Nat) (r : Int) (st : DecodeState),
      ¬ (dump_objs_loop u d ra n i r st).1 < 0 →
      st.cur_obj = (st.read.map (fun o => (d o).obj.size)).sum →
      (∀ o ∈ st.read, record_ok u (d o).obj ∧ o + (d o).obj.size ≤ st.cur_obj) →
      (dump_objs_loop u d ra n i r st).2.cur_obj
        = ((dump_objs_loop u d ra n i r st).2.read.map (fun o => (d o).obj.size)).sum ∧
      (∀ o ∈ (dump_objs_loop u d ra n i r st).2.read,
        record_ok u (d o).obj ∧
        o + (d o).obj.size ≤ (dump_objs_loop u d ra n i r st).2.cur_obj) ∧
      (dump_objs_loop u d ra n i r st).2.read.length = st.read.length + n := by
  intro n
  induction n with
  | zero => intro i r st _ h1 h2; exact ⟨h1, h2, rfl⟩
  | succ n ih =>
    intro i r st h h1 h2
    rw [dump_objs_loop_succ] at h ⊢
    by_cases c : (dump_switch u (ra i) (d st.cur_obj) st.vmas).1.ret < 0
    · rw [if_pos c] at h
      exact absurd c h
    · simp only [if_neg c] at h ⊢
      rcases dump_switch_ret u (ra i) (d st.cur_obj) st.vmas with e | ⟨ok, e⟩
      · rw [e] at c
        exact absurd (by decide) c
      · have ih2 := ih (i + 1) _ _ h
          (by
            simp only [e, Int.toNat_ofNat, List.map_append, List.sum_append, List.map_cons,
              List.map_nil, List.sum_cons, List.sum_nil, add_zero]
            rw [← h1])
          (by
            intro o ho
            simp only [List.mem_append, List.mem_singleton] at ho
            rcases ho with ho | ho
            · have := h2 o ho
              simp only [e, Int.toNat_ofNat]
              exact ⟨this.1, by omega⟩
            · subst ho
              simp only [e, Int.toNat_ofNat]
              exact ⟨ok, le_refl _⟩)
        refine ⟨ih2.1, ih2.2.1, ?_⟩
        rw [ih2.2.2]
        simp
        omega

theorem dump_pd_340_loop :
    ∀ (n i : Nat) (r : Int) (st : DecodeState), 0 ≤ r → st.cur_obj + 12 * n ≤ 4080 →
      ¬ (dump_objs_loop uapi0 dump_pd_340_mr (fun _ => true) n i r st).1 < 0 ∧
      (dump_objs_loop uapi0 dump_pd_340_mr (fun _ => true) n i r st).2.cur_obj
        = st.cur_obj + 12 * n := by
  intro n
  induction n with
  | zero => intro i r st hr _; exact ⟨by simpa [dump_objs_loop] using hr, rfl⟩
  | succ n ih =>
    intro i r st _ hb
    have e : ∀ vmas o, o < 4080 →
        (dump_switch uapi0 true (dump_pd_340_mr o) vmas).1.ret = 12 := by
      intro vmas o ho
      unfold dump_pd_340_mr
      rw [if_pos ho]
      rfl
    rw [dump_objs_loop_succ]
    simp only [e st.vmas st.cur_obj (by omega)]
    rw [if_neg (by decide)]
    have h12 : (12 : Int).toNat = 12 := rfl
    have hb2 : st.cur_obj + (12 : Int).toNat + 12 * n ≤ 4080 := by
      rw [h12]
      omega
    refine ⟨(ih _ _ _ (by decide) hb2).1, ?_⟩
    rw [(ih _ _ _ (by decide) hb2).2]
    simp only [h12]
    omega

theorem dump_one_ibverbs_success (u : Uapi) (env : DumpEnv) (vmas : List VmaEntry)
    (hl : reaches_loop env)
    (hs : ¬ (dump_objs_loop u env.dump env.record_alloc env.count.toNat 0 0
      { cur_obj := 0, objs := [], vmas := vmas, read := [] }).1 < 0) :
    dump_one_ibverbs u env vmas
      = { ret := env.pb_write_one,
          written := some (dump_objs_loop u env.dump env.record_alloc env.count.toNat 0 0
            { cur_obj := 0, objs := [], vmas := vmas, read := [] }).2.objs,
          vmas := (dump_objs_loop u env.dump env.record_alloc env.count.toNat 0 0
            { cur_obj := 0, objs := [], vmas := vmas, read := [] }).2.vmas,
          cur_obj := (dump_objs_loop u env.dump env.record_alloc env.count.toNat 0 0
            { cur_obj := 0, objs := [], vmas := vmas, read := [] }).2.cur_obj,
          read := (dump_objs_loop u env.dump env.record_alloc env.count.toNat 0 0
            { cur_obj := 0, objs := [], vmas := vmas, read := [] }).2.read } := by
  obtain ⟨h1, h2, h3, h4, h5, h6⟩ := hl
  unfold dump_one_ibverbs
  rw [if_neg (not_not.mpr h1), if_neg h2, if_neg h3, if_neg h4, if_neg (not_not.mpr h5),
    if_neg h6]
  simp only [h5]
  rw [if_neg hs]

/-- C9 (counterexample): with a count of 341 and a buffer holding 340 PD
records followed by an MR record whose header is at offset 4080, the decoding
loop succeeds, the image entry is written, and the offset reached is 4128,
beyond the capacity 4096: the code compares neither the offset nor the count
with `dump_size`, and the MR record read at offset 4080 ends beyond the
buffer. -/
theorem decode_offset_beyond_capacity :
    (dump_one_ibverbs uapi0 (dump_env_ok 341 dump_pd_340_mr) []).ret = 0 ∧
    (dump_one_ibverbs uapi0 (dump_env_ok 341 dump_pd_340_mr) []).written ≠ none ∧
    (dump_one_ibverbs uapi0 (dump_env_ok 341 dump_pd_340_mr) []).cur_obj = 4128 ∧
    ¬ (dump_one_ibverbs uapi0 (dump_env_ok 341 dump_pd_340_mr) []).cur_obj ≤ dump_size ∧
    4080 + (dump_pd_340_mr 4080).obj.size = 4128 := by
  have h := dump_pd_340_loop 340 0 0 { cur_obj := 0, objs := [], vmas := [], read := [] }
    (le_refl _) (by decide)
  have hsplit := dump_objs_loop_add uapi0 dump_pd_340_mr (fun _ => true) 340 1 0 0
    { cur_obj := 0, objs := [], vmas := [], read := [] } h.1
  have h2 := h.2
  simp only [] at h2
  have hsw : ∀ vmas a,
      (dump_switch uapi0 a (dump_pd_340_mr 4080) vmas).1.ret = 48 ∨ a = false := by
    intro vmas a
    cases a
    · right; rfl
    · left; rfl
  have hone : ¬ (dump_objs_loop uapi0 dump_pd_340_mr (fun _ => true) 341 0 0
        { cur_obj := 0, objs := [], vmas := [], read := [] }).1 < 0 ∧
      (dump_objs_loop uapi0 dump_pd_340_mr (fun _ => true) 341 0 0
        { cur_obj := 0, objs := [], vmas := [], read := [] }).2.cur_obj = 4128 := by
    rw [show (341 : Nat) = 340 + 1 from rfl, hsplit, dump_objs_loop_succ]
    rw [h2]
    have e48 := (hsw (dump_objs_loop uapi0 dump_pd_340_mr (fun _ => true) 340 0 0
      { cur_obj := 0, objs := [], vmas := [], read := [] }).2.vmas true).resolve_right
        (by decide)
    simp only [show 0 + 12 * 340 = 4080 from rfl, e48]
    rw [if_neg (by decide)]
    exact ⟨by unfold dump_objs_loop; decide, rfl⟩
  have hc : (dump_env_ok 341 dump_pd_340_mr).count.toNat = 341 := rfl
  have hd : (dump_env_ok 341 dump_pd_340_mr).dump = dump_pd_340_mr := rfl
  have ha : (dump_env_ok 341 dump_pd_340_mr).record_alloc = fun _ => true := rfl
  have e := dump_one_ibverbs_success uapi0 (dump_env_ok 341 dump_pd_340_mr) []
    ⟨rfl, by decide, by decide, by decide, rfl, by decide⟩ (by rw [hc, hd, ha]; exact hone.1)
  rw [hc, hd, ha] at e
  rw [e]
  have e2 := hone.2
  refine ⟨rfl, fun hn => Option.noConfusion hn, ?_, ?_, rfl⟩
  · simp only []
    rw [e2]
  · simp only []
    rw [e2]
    norm_num [dump_size]

/-- C9 (amended): when the decoding loop of `dump_one_ibverbs` succeeds (the
image entry is handed to `pb_write_one`), `count` records have been read,
each with one of the four tags and with the fixed size of its kind in its
`size` field, and the byte offset reached is the sum of their `size` fields;
if that offset is within the capacity `dump_size`, every record read ends
within the capacity. -/
theorem decode_offset (u : Uapi) (env : DumpEnv) (vmas : List VmaEntry)
    (h : (dump_one_ibverbs u env vmas).written ≠ none) :
    (dump_one_ibverbs u env vmas).cur_obj
      = ((dump_one_ibverbs u env vmas).read.map (fun o => (env.dump o).obj.size)).sum ∧
    (dump_one_ibverbs u env vmas).read.length = env.count.toNat ∧
    (∀ o ∈ (dump_one_ibverbs u env vmas).read, record_ok u (env.dump o).obj) ∧
    ((dump_one_ibverbs u env vmas).cur_obj ≤ dump_size →
      ∀ o ∈ (dump_one_ibverbs u env vmas).read, o + (env.dump o).obj.size ≤ dump_size) := by
  unfold dump_one_ibverbs at h ⊢
  simp only [] at h ⊢
  split_ifs at h ⊢ with c1 c2 c3 c4 c5 c6 c7
  all_goals first | exact absurd rfl h | skip
  obtain ⟨a, b, c⟩ := dump_objs_loop_offset u env.dump env.record_alloc env.count.toNat 0
    env.ibv_dump_context { cur_obj := 0, objs := [], vmas := vmas, read := [] } c7 rfl
    (by intro o ho; simp at ho)
  refine ⟨a, by simpa using c, fun o ho => (b o ho).1, fun hle o ho => ?_⟩
  have := (b o ho).2
  simp only [] at hle
  omega

/-- C9 (witness): a dump of a PD record followed by an MR record is written
and the offset reached is 60, the sum of the two `size` fields. -/
theorem decode_offset_witness :
    (dump_one_ibverbs uapi0 (dump_env_ok 2 dump_pd_mr) []).cur_obj = 60 ∧
    (dump_one_ibverbs uapi0 (dump_env_ok 2 dump_pd_mr) []).read = [0, 12] ∧
    (dump_one_ibverbs uapi0 (dump_env_ok 2 dump_pd_mr) []).cur_obj
      = ((dump_one_ibverbs uapi0 (dump_env_ok 2 dump_pd_mr) []).read.map
          (fun o => ((dump_env_ok 2 dump_pd_mr).dump o).obj.size)).sum :=
  ⟨by decide, by decide,
    (decode_offset uapi0 (dump_env_ok 2 dump_pd_mr) [] (by decide)).1⟩

/-- Supporting lemma for C5: when `address + length` does not wrap in 64
bits, a VMA that intersects the range of the MR gets the bit, the bounds of a
VMA are never changed, and a VMA whose status is changed satisfies
`address ≤ end` and `start ≤ address + length` (it intersects the range or
touches it). -/
theorem mark_vma_spec (u : Uapi) (address length : Nat) (vma : VmaEntry)
    (h : address + length < 2 ^ 64) :
    (vma_intersects vma address length →
      (mark_vma u address length vma).status = vma.status ||| u.VMA_AREA_IBVERBS) ∧
    (mark_vma u address length vma).start = vma.start ∧
    (mark_vma u address length vma).end_ = vma.end_ ∧
    ((mark_vma u address length vma).status ≠ vma.status →
      address ≤ vma.end_ ∧ vma.start ≤ address + length) := by
  have e : add64 address length = address + length := Nat.mod_eq_of_lt h
  unfold mark_vma vma_intersects
  rw [e]
  by_cases c : vma.end_ < address ∨ address + length < vma.start
  · rw [if_pos c]
    refine ⟨fun hi => ?_, rfl, rfl, fun hne => absurd rfl hne⟩
    simp only [lt_min_iff, max_lt_iff] at hi
    omega
  · rw [if_neg c]
    refine ⟨fun _ => rfl, rfl, rfl, fun _ => ?_⟩
    omega

/-- C5 (failing input): for the MR `[0x2000, 0x3000)` and the VMA
`[0x1000, 0x2000)`, which ends where the MR begins and has no byte in common
with it, `dump_one_ibverbs_mr` sets `VMA_AREA_IBVERBS` in the status of the
VMA: the test `end < address` skips only the VMAs that end strictly below the
address. The same happens to the VMA `[0x3000, 0x4000)`, which begins where
the MR ends. -/
theorem mark_vmas_adjacent :
    (dump_one_ibverbs_mr uapi0 true { type := 1, size := 48, handle := 1 }
      { address := 0x2000, length := 0x1000 }
      [{ start := 0x1000, end_ := 0x2000, status := 0 },
       { start := 0x3000, end_ := 0x4000, status := 0 }]).2
      = [{ start := 0x1000, end_ := 0x2000, status := 16384 },
         { start := 0x3000, end_ := 0x4000, status := 16384 }] ∧
    uapi0.VMA_AREA_IBVERBS = 16384 ∧
    ¬ vma_intersects { start := 0x1000, end_ := 0x2000, status := 0 } 0x2000 0x1000 ∧
    ¬ vma_intersects { start := 0x3000, end_ := 0x4000, status := 0 } 0x2000 0x1000 := by
  refine ⟨by decide, rfl, by decide, by decide⟩

/-! ## Properties of the decoded QP attributes -/

theorem dump_one_ibverbs_qp_some (u : Uapi) (a : Bool) (dump_obj : ib_uverbs_dump_object)
    (dump_qp : ib_uverbs_dump_object_qp) (o : IbverbsObject)
    (h : (dump_one_ibverbs_qp u a dump_obj dump_qp).pb_obj = some o) :
    o.qp.min_rnr_timer = dump_qp.attr.path_mtu ∧ o.qp.path_mtu = dump_qp.attr.path_mtu ∧
    o.handle = dump_obj.handle ∧ o.qp.qp_state = dump_qp.attr.qp_state := by
  unfold dump_one_ibverbs_qp at h
  split_ifs at h
  simp only [Option.some.injEq] at h
  subst h
  exact ⟨rfl, rfl, rfl, rfl⟩

theorem modify_calls_append (a b : List Ev) :
    modify_calls (a ++ b) = modify_calls a ++ modify_calls b := by
  unfold modify_calls
  exact List.filterMap_append _ _ _

theorem modify_calls_modify_events (p : Nat) (l : List (ibv_qp_attr × Finset QpAttrMask)) :
    modify_calls (modify_events p l) = l := by
  unfold modify_calls modify_events
  induction l with
  | nil => rfl
  | cons a l ih => simp [ih]

theorem modify_calls_keep_events (qp : IbverbsQp) : modify_calls (keep_events qp) = [] := by
  unfold keep_events modify_calls
  by_cases hr : qp.rq_size > 0 <;> by_cases hs : qp.sq_size > 0 <;> simp [hr, hs]

/-- The `ibv_modify_qp` calls made by a successful `ibverbs_restore_qp`. -/
theorem restore_qp_modify_calls (u : Uapi) (k : Kernel) (s : RestoreState) (obj : IbverbsObject)
    (h : (ibverbs_restore_qp u k s obj).1 = 0) :
    modify_calls ((ibverbs_restore_qp u k s obj).2.trace.drop s.trace.length)
      = (qp_transitions obj.qp).take obj.qp.qp_state := by
  obtain ⟨w, _, _, _, _, _, _, _, _, _, htr⟩ := restore_qp_success u k s obj h
  rw [htr]
  simp only [List.append_assoc, List.drop_left]
  rw [modify_calls_append, modify_calls_append, modify_calls_append, modify_calls_keep_events,
    modify_calls_modify_events]
  simp [modify_calls, qp_create_event]

/-- C17: for every QP dump record that is decoded, the `min_rnr_timer` of the
image object is the `path_mtu` of the dump record, whatever the
`min_rnr_timer` of the dump record; the attributes of the INIT to RTR call
built from the image object carry that value as `min_rnr_timer`; and in every
successful restore of the image object with target state RTR or RTS the second
`ibv_modify_qp` call is that INIT to RTR call. -/
theorem min_rnr_timer_is_path_mtu (u : Uapi) (k : Kernel) (s : RestoreState) (a : Bool)
    (dump_obj : ib_uverbs_dump_object) (dump_qp : ib_uverbs_dump_object_qp) (o : IbverbsObject)
    (hdec : (dump_one_ibverbs_qp u a dump_obj dump_qp).pb_obj = some o) :
    o.qp.min_rnr_timer = dump_qp.attr.path_mtu ∧
    (qp_attr_rtr o.qp).qp_state = IB_QPS_RTR ∧
    (qp_attr_rtr o.qp).min_rnr_timer = dump_qp.attr.path_mtu ∧
    (qp_attr_rtr o.qp).path_mtu = dump_qp.attr.path_mtu ∧
    ((ibverbs_restore_qp u k s o).1 = 0 → IB_QPS_RTR ≤ o.qp.qp_state →
      (modify_calls ((ibverbs_restore_qp u k s o).2.trace.drop s.trace.length))[1]?
        = some (qp_attr_rtr o.qp, qp_flags_rtr)) := by
  obtain ⟨h1, h2, _, _⟩ := dump_one_ibverbs_qp_some u a dump_obj dump_qp o hdec
  refine ⟨h1, rfl, ?_, ?_, ?_⟩
  · simp [qp_attr_rtr, h1]
  · simp [qp_attr_rtr, h2]
  · intro hs hst
    rw [restore_qp_modify_calls u k s o hs]
    unfold IB_QPS_RTR at hst
    obtain ⟨_, _, _, _, _, _, hle, _⟩ := restore_qp_success u k s o hs
    have : o.qp.qp_state = 2 ∨ o.qp.qp_state = 3 := by omega
    rcases this with e | e <;> rw [e] <;> rfl

/-- C17 (witness): the dump record with `path_mtu = 3` and
`min_rnr_timer = 12` is decoded into an object with `min_rnr_timer = 3`, and
its restore to RTS issues the INIT to RTR call with `min_rnr_timer = 3`. -/
theorem min_rnr_timer_is_path_mtu_witness :
    ((dump_one_ibverbs_qp uapi0 true { type := 3, size := 208, handle := 3 } dump_qp0).pb_obj.map
      (fun o => o.qp.min_rnr_timer)) = some 3 ∧
    dump_qp0.attr.min_rnr_timer = 12 ∧
    ((dump_one_ibverbs_qp uapi0 true { type := 3, size := 208, handle := 3 } dump_qp0).pb_obj.map
      (fun o => ((modify_calls (ibverbs_restore_qp uapi0
        (kernel_ok { ptr := 203, handle := 3, qp_num := 0x100 } 1000) state0 o).2.trace).map
          (fun c => (c.1.qp_state, c.1.min_rnr_timer))))) = some [(1, 0), (2, 3), (3, 0)] ∧
    (∀ o, (dump_one_ibverbs_qp uapi0 true { type := 3, size := 208, handle := 3 }
        dump_qp0).pb_obj = some o → o.qp.min_rnr_timer = dump_qp0.attr.path_mtu) :=
  ⟨by decide, by decide, by decide,
    fun o ho => (min_rnr_timer_is_path_mtu uapi0
      (kernel_ok { ptr := 203, handle := 3, qp_num := 0x100 } 1000) state0 true
      { type := 3, size := 208, handle := 3 } dump_qp0 o ho).1⟩

/-! ## Properties of the MR knob and of the pairing of knob writes -/

theorem rxe_set_last_mrn_trace (k : Kernel) (tr : List Ev) (new_mrn v o : Nat)
    (hread : k.pread (tr ++ [Ev.pread CR_IBVERBS_RXE_MRN]) = KnobRead.val v) :
    (rxe_set_last_mrn k tr new_mrn (some o)).trace
      = tr ++ [Ev.pread CR_IBVERBS_RXE_MRN, Ev.pwrite CR_IBVERBS_RXE_MRN new_mrn] ∧
    (rxe_set_last_mrn k tr new_mrn (some o)).old_val = some (v % 2 ^ 32) := by
  unfold rxe_set_last_mrn rxe_set_parameter
  simp only [hread]
  by_cases hw : k.pwrite (tr ++ [Ev.pread CR_IBVERBS_RXE_MRN,
      Ev.pwrite CR_IBVERBS_RXE_MRN new_mrn]) < 0 <;> simp [hw]

theorem restore_mr_first_write (u : Uapi) (k : Kernel) (s : RestoreState) (obj : IbverbsObject)
    (v : Nat)
    (hpd : ibverbs_get_object s.objects u.IB_UVERBS_OBJECT_PD (to_int obj.mr.pd_handle) ≠ 0)
    (hread : k.pread (s.trace ++ [Ev.pread CR_IBVERBS_RXE_MRN]) = KnobRead.val v) :
    s.trace ++ [Ev.pread CR_IBVERBS_RXE_MRN,
        Ev.pwrite CR_IBVERBS_RXE_MRN (sub32 obj.mr.mrn 1)]
      <+: (ibverbs_restore_mr u k s obj).2.trace := by
  obtain ⟨h1, h2⟩ := rxe_set_last_mrn_trace k s.trace (sub32 obj.mr.mrn 1) v 0 hread
  unfold ibverbs_restore_mr
  simp only []
  rw [if_neg hpd]
  simp only [h1, h2, rxe_set_last_mrn_null, Option.getD_some]
  split_ifs
  all_goals simp only [List.append_assoc]
  all_goals first
    | exact List.prefix_refl _
    | exact (List.prefix_append_right_inj _).mpr ⟨_, rfl⟩

/-- C11 (counterexample): `rxe_set_last_mrn(42, &old)` writes 42 to the
`last_mrn` knob, not `42 - 1 = 41`: the function passes its argument to
`rxe_set_parameter` unchanged. -/
theorem rxe_set_last_mrn_writes_argument :
    knob_writes CR_IBVERBS_RXE_MRN (rxe_set_last_mrn (kernel_ok {} 1000) [] 42 (some 0)).trace
      = [42] ∧
    sub32 42 1 = 41 ∧
    knob_writes CR_IBVERBS_RXE_MRN (rxe_set_last_mrn (kernel_ok {} 1000) [] 42 (some 0)).trace
      ≠ [sub32 42 1] := by
  refine ⟨by decide, by decide, by decide⟩

/-- C11 (amended): when the knob reads `v` and the write is accepted,
`rxe_set_last_mrn(new_mrn, &old)` returns 0, performs one read and then one
write of `new_mrn` itself on the `last_mrn` knob and leaves `v` (as a
`uint32_t`) in `old`; the subtraction of 1 is made by the caller:
`ibverbs_restore_mr` passes `mrn - 1`, so that the first accesses of the
restore of an MR entry whose PD is found are the read of the knob and the
write of `mrn - 1` modulo `2^32`. -/
theorem rxe_set_last_mrn_spec (u : Uapi) (k : Kernel) (tr : List Ev) (new_mrn v o : Nat)
    (hread : k.pread (tr ++ [Ev.pread CR_IBVERBS_RXE_MRN]) = KnobRead.val v)
    (hwrite : ¬ k.pwrite (tr ++ [Ev.pread CR_IBVERBS_RXE_MRN,
      Ev.pwrite CR_IBVERBS_RXE_MRN new_mrn]) < 0) :
    (rxe_set_last_mrn k tr new_mrn (some o)).ret = 0 ∧
    (rxe_set_last_mrn k tr new_mrn (some o)).old_val = some (v % 2 ^ 32) ∧
    (rxe_set_last_mrn k tr new_mrn (some o)).trace
      = tr ++ [Ev.pread CR_IBVERBS_RXE_MRN, Ev.pwrite CR_IBVERBS_RXE_MRN new_mrn] ∧
    (∀ (s : RestoreState) (obj : IbverbsObject), s.trace = tr →
      ibverbs_get_object s.objects u.IB_UVERBS_OBJECT_PD (to_int obj.mr.pd_handle) ≠ 0 →
      s.trace ++ [Ev.pread CR_IBVERBS_RXE_MRN,
          Ev.pwrite CR_IBVERBS_RXE_MRN (sub32 obj.mr.mrn 1)]
        <+: (ibverbs_restore_mr u k s obj).2.trace) ∧
    (∀ mrn : Nat, ((sub32 mrn 1 : Nat) : Int) = ((mrn : Int) - 1) % 2 ^ 32) := by
  refine ⟨?_, (rxe_set_last_mrn_trace k tr new_mrn v o hread).2,
    (rxe_set_last_mrn_trace k tr new_mrn v o hread).1, ?_, ?_⟩
  · simp [rxe_set_last_mrn, rxe_set_parameter, hread, hwrite]
  · intro s obj hs hpd
    exact restore_mr_first_write u k s obj v hpd (by rw [hs]; exact hread)
  · intro mrn
    unfold sub32
    norm_num
    omega

/-- C11 (witness): with the knob at 1000, `rxe_set_last_mrn(41, &old)` writes
41 and returns `old = 1000`, and the restore of the MR entry with `mrn = 42`
begins with the read of the knob and the write of 41. -/
theorem rxe_set_last_mrn_spec_witness :
    (rxe_set_last_mrn (kernel_ok {} 1000) [] 41 (some 0)).old_val = some 1000 ∧
    (rxe_set_last_mrn (kernel_ok {} 1000) [] 41 (some 0)).trace
      = [Ev.pread CR_IBVERBS_RXE_MRN, Ev.pwrite CR_IBVERBS_RXE_MRN 41] ∧
    [Ev.pread CR_IBVERBS_RXE_MRN, Ev.pwrite CR_IBVERBS_RXE_MRN 41]
      <+: (ibverbs_restore_mr uapi0 (kernel_ok {} 1000) state0 mr_entry0).2.trace :=
  have h := rxe_set_last_mrn_spec uapi0 (kernel_ok {} 1000) [] 41 1000 0 rfl (by decide)
  ⟨h.2.1, h.2.2.1, h.2.2.2.1 state0 mr_entry0 rfl (by decide)⟩

/-- C15 (failing inputs): three runs in which the knob is forced and never
written back. When `ibv_reg_mr` returns `NULL`, `ibverbs_restore_mr` returns
`-1` and its only write to `last_mrn` is the forced `mrn - 1 = 41`; when
`IBV_RESTORE_QP_CREATE` fails, or returns a QP whose `qp_num` is not the
recorded one, `ibverbs_restore_qp` returns `-1` and its only write to
`last_qpn` is the forced `qp_num - 16 = 0xF0`. The value read before, 1000, is
not written back. -/
theorem knob_not_written_back :
    (ibverbs_restore_mr uapi0 (kernel_reg_mr_fails 1000) state0 mr_entry0).1 = -1 ∧
    (ibverbs_restore_mr uapi0 (kernel_reg_mr_fails 1000) state0 mr_entry0).2.trace
      = [Ev.pread CR_IBVERBS_RXE_MRN, Ev.pwrite CR_IBVERBS_RXE_MRN 41,
         Ev.ibv_reg_mr 101 0x400000 0x2000 0] ∧
    knob_writes CR_IBVERBS_RXE_MRN
      (ibverbs_restore_mr uapi0 (kernel_reg_mr_fails 1000) state0 mr_entry0).2.trace = [41] ∧
    (ibverbs_restore_qp uapi0 (kernel_restore_object_fails 1000) state0 qp_entry0).1 = -1 ∧
    knob_writes CR_IBVERBS_RXE_QPN
      (ibverbs_restore_qp uapi0 (kernel_restore_object_fails 1000) state0 qp_entry0).2.trace
      = [0xF0] ∧
    (ibverbs_restore_qp uapi0 (kernel_ok { ptr := 203, handle := 3, qp_num := 0x101 } 1000)
      state0 qp_entry0).1 = -1 ∧
    knob_writes CR_IBVERBS_RXE_QPN
      (ibverbs_restore_qp uapi0 (kernel_ok { ptr := 203, handle := 3, qp_num := 0x101 } 1000)
        state0 qp_entry0).2.trace = [0xF0] := by
  refine ⟨by decide, by decide, by decide, by decide, by decide, by decide, by decide⟩

/-! ## Properties of the device lookup -/

theorem find_ibdev_scan_find (l : List ibv_device) (i : Nat) (name : String) :
    (find_ibdev_scan l i name).1 = l.find? (fun d => decide (d.name = name)) := by
  induction l generalizing i with
  | nil => rfl
  | cons d rest ih =>
    unfold find_ibdev_scan
    by_cases h : d.name = name
    · simp [h]
    · simp [h, ih]

/-- Supporting lemma for C14: the first call of `find_ibdev`, when the device
list is not empty and the knob descriptors are installed, returns the first
device of the list with the given name, or the first device of the list when
no name is given. -/
theorem find_ibdev_first_call (env : DevEnv) (st : DevState) (l : List ibv_device)
    (name : String) (hst : st.dev_list = none) (hl : env.ibv_get_device_list = some l)
    (hne : l ≠ []) (hsvc : install_rxe_service env = 0) :
    (find_ibdev env st (some name)).1 = l.find? (fun d => decide (d.name = name)) ∧
    (find_ibdev env st none).1 = l.head? := by
  have hlen : ¬ ((l.length : Int) ≤ 0) := by
    have : 0 < l.length := List.length_pos.mpr hne
    omega
  unfold find_ibdev init_ibverbs
  simp only [hst, hl, if_true, if_neg hlen, hsvc, ne_eq, not_true_eq_false, if_false,
    List.drop_zero]
  refine ⟨find_ibdev_scan_find l 0 name, ?_⟩
  cases l with
  | nil => exact absurd rfl hne
  | cons d rest => rfl

/-- Supporting lemma for C14: a later call of `find_ibdev` searches the devices
from the position at which the searches before left `dev_list`, and a call
without a name returns the device at that position. -/
theorem find_ibdev_later_call (env : DevEnv) (st : DevState) (i : Nat) (name : String)
    (hst : st.dev_list = some i) :
    (find_ibdev env st (some name)).1
      = (st.devices.drop i).find? (fun d => decide (d.name = name)) ∧
    (find_ibdev env st none).1 = st.devices.get? i := by
  unfold find_ibdev
  simp only [hst, reduceCtorEq, if_false, ne_eq, not_true_eq_false, and_true]
  exact find_ibdev_scan_find _ i name

/-- Supporting lemma for C13: for a handle below `2^31`, a lookup that returns a
pointer has read it from the slot of that handle, which is below
`ELEM_COUNT`. -/
theorem get_object_found (t : Table) (kind : Int) (h : Nat) (hh : h < 2 ^ 31)
    (hf : ibverbs_get_object t kind (to_int h) ≠ 0) :
    (h : Int) < ELEM_COUNT ∧ ibverbs_get_object t kind (to_int h) = t (objects_cell kind h) := by
  rw [to_int_of_lt hh] at hf ⊢
  unfold ibverbs_get_object at hf ⊢
  by_cases c : (h : Int) ≥ ELEM_COUNT
  · rw [if_pos c] at hf
    exact absurd rfl hf
  · rw [if_neg c]
    exact ⟨lt_of_not_ge c, rfl⟩

theorem digitChar_digit (m : Nat) (h : m < 10) :
    (Nat.digitChar m).isDigit = true ∧ (Nat.digitChar m).toNat - 48 = m := by
  interval_cases m <;> decide

theorem toDigitsCore_append (fuel : Nat) :
    ∀ (n : Nat) (ds : List Char),
      Nat.toDigitsCore 10 fuel n ds = Nat.toDigitsCore 10 fuel n [] ++ ds := by
  induction fuel with
  | zero => intro n ds; simp [Nat.toDigitsCore]
  | succ fuel ih =>
    intro n ds
    simp only [Nat.toDigitsCore]
    by_cases h : n / 10 = 0
    · simp [h]
    · simp only [h, if_false]
      rw [ih (n / 10) (Nat.digitChar (n % 10) :: ds), ih (n / 10) [Nat.digitChar (n % 10)]]
      simp

theorem digits_value_append (xs : List Char) (c : Char) :
    digits_value (xs ++ [c]) = 10 * digits_value xs + (c.toNat - 48) := by
  unfold digits_value
  simp [List.foldl_append]

theorem toDigitsCore_value (fuel : Nat) :
    ∀ n : Nat, n < fuel →
      digits_value (Nat.toDigitsCore 10 fuel n []) = n ∧
      (∀ c ∈ Nat.toDigitsCore 10 fuel n [], c.isDigit = true) ∧
      Nat.toDigitsCore 10 fuel n [] ≠ [] := by
  induction fuel with
  | zero => intro n h; omega
  | succ fuel ih =>
    intro n hn
    have hd := digitChar_digit (n % 10) (Nat.mod_lt n (by decide))
    simp only [Nat.toDigitsCore]
    by_cases h : n / 10 = 0
    · simp only [h, if_true]
      refine ⟨?_, ?_, by simp⟩
      · have : digits_value [Nat.digitChar (n % 10)] = (Nat.digitChar (n % 10)).toNat - 48 := by
          simp [digits_value]
        rw [this, hd.2]
        omega
      · intro c hc
        simp only [List.mem_singleton] at hc
        rw [hc]
        exact hd.1
    · simp only [h, if_false]
      rw [toDigitsCore_append fuel (n / 10) [Nat.digitChar (n % 10)]]
      obtain ⟨a, b, _⟩ := ih (n / 10) (by omega)
      refine ⟨?_, ?_, by simp⟩
      · rw [digits_value_append, a, hd.2]
        omega
      · intro c hc
        rcases List.mem_append.mp hc with e | e
        · exact b c e
        · simp only [List.mem_singleton] at e
          rw [e]
          exact hd.1

theorem toDigits_value (v : Nat) :
    digits_value (Nat.toDigits 10 v) = v ∧ (∀ c ∈ Nat.toDigits 10 v, c.isDigit = true) ∧
    Nat.toDigits 10 v ≠ [] :=
  toDigitsCore_value (v + 1) v (Nat.lt_succ_self v)

theorem toDigits_length (v : Nat) (h : v < 10 ^ 10) : (Nat.toDigits 10 v).length ≤ 10 :=
  Nat.toDigitsCore_length 10 (by decide) (v + 1) v 10 h (by decide)

theorem isDigit_not_space (c : Char) (h : c.isDigit = true) :
    is_space c = false ∧ c ≠ '-' ∧ c ≠ '+' := by
  refine ⟨?_, ?_, ?_⟩
  · unfold is_space
    simp only [Bool.or_eq_false_iff, decide_eq_false_iff_not]
    refine ⟨⟨⟨⟨⟨?_, ?_⟩, ?_⟩, ?_⟩, ?_⟩, ?_⟩ <;> (intro e; rw [e] at h; exact absurd h (by decide))
  · intro e; rw [e] at h; exact absurd h (by decide)
  · intro e; rw [e] at h; exact absurd h (by decide)

theorem takeWhile_digits (ds rest : List Char) (h : ∀ c ∈ ds, c.isDigit = true) :
    (ds ++ '\n' :: rest).takeWhile Char.isDigit = ds := by
  induction ds with
  | nil => simp [List.takeWhile]
  | cons d ds ih =>
    have hd := h d (List.mem_cons_self _ _)
    simp only [List.cons_append, List.takeWhile_cons, hd, if_true]
    rw [ih (fun c hc => h c (List.mem_cons_of_mem _ hc))]

/-- Supporting lemma for C12: `sscanf` with `%u` on the unsigned decimal text of
a `uint32_t` followed by a newline yields that value. -/
theorem sscanf_u_decimal (v : Nat) (rest : List Char) (h : v < 2 ^ 32) :
    sscanf_u (Nat.toDigits 10 v ++ '\n' :: rest) = some v := by
  obtain ⟨hv, hdig, hne⟩ := toDigits_value v
  obtain ⟨d, ds, hds⟩ := List.exists_cons_of_ne_nil hne
  have hd := isDigit_not_space d (hdig d (by rw [hds]; exact List.mem_cons_self _ _))
  have htw := takeWhile_digits (Nat.toDigits 10 v) rest hdig
  unfold sscanf_u
  rw [hds] at htw ⊢
  have e1 : (d :: ds ++ '\n' :: rest).dropWhile is_space = d :: ds ++ '\n' :: rest := by
    simp [List.dropWhile, hd.1]
  simp only [e1]
  have e2 : (d :: ds ++ '\n' :: rest).head? = some d := rfl
  simp only [e2, Option.some.injEq, hd.2.1, hd.2.2, or_self, if_false, htw]
  rw [if_neg (by simp), ← hds, hv, Nat.mod_eq_of_lt h]

/-- Supporting lemma for C12: for a value below `2^31` the buffer written is
the unsigned decimal text of the value followed by one newline, at most 11
characters. -/
theorem knob_buf_small (v : Nat) (h : v < 2 ^ 31) :
    knob_buf v = Nat.toDigits 10 v ++ ['\n'] ∧ (knob_buf v).length ≤ 11 := by
  have hl := toDigits_length v (by omega)
  have e : format_d v = Nat.toDigits 10 v := by
    unfold format_d
    rw [to_int_of_lt h]
    simp
  have e2 : knob_buf v = Nat.toDigits 10 v ++ ['\n'] := by
    unfold knob_buf
    rw [e]
    apply List.take_of_length_le
    simp
    omega
  refine ⟨e2, ?_⟩
  rw [e2]
  simp
  omega

theorem sscanf_u_lt (buf : List Char) (v : Nat) (h : sscanf_u buf = some v) : v < 2 ^ 32 := by
  unfold sscanf_u at h
  simp only [] at h
  split_ifs at h <;>
    (simp only [Option.some.injEq] at h
     rw [← h]
     exact Nat.mod_lt _ (by decide))

/-- The embedding of `rxe_set_parameter` by values agrees with the one by
bytes: when the environment answers the read with the outcome of `sscanf` on
the bytes read and the write with the same return value, both have the same
return value and the same `old` value, and the bytes are written exactly when
the trace holds the write. -/
theorem rxe_set_parameter_bytes_agree (k : Kernel) (tr : List Ev) (fd : Knob) (new_val : Nat)
    (old_val : Option Nat) (io : KnobFile)
    (hr : k.pread (tr ++ [Ev.pread fd]) = knob_read_of io.pread)
    (hw1 : k.pwrite (tr ++ [Ev.pread fd, Ev.pwrite fd new_val]) = io.pwrite)
    (hw2 : k.pwrite (tr ++ [Ev.pwrite fd new_val]) = io.pwrite) :
    (rxe_set_parameter k tr fd new_val old_val).ret
      = (rxe_set_parameter_bytes io new_val old_val).ret ∧
    (rxe_set_parameter k tr fd new_val old_val).old_val
      = (rxe_set_parameter_bytes io new_val old_val).old_val ∧
    (rxe_set_parameter_bytes io new_val old_val).written
      = if Ev.pwrite fd new_val ∈ (rxe_set_parameter k tr fd new_val old_val).trace.drop tr.length
        then some (knob_buf new_val) else none := by
  unfold rxe_set_parameter rxe_set_parameter_bytes
  cases old_val with
  | none =>
    simp only [hw2]
    split_ifs <;> simp_all
  | some o =>
    simp only [hr, hw1]
    cases hp : io.pread with
    | none => simp [knob_read_of]
    | some buf =>
      cases hs : sscanf_u buf with
      | none => simp [knob_read_of, hs]
      | some v =>
        have hlt := sscanf_u_lt buf v hs
        simp only [knob_read_of, hs, Nat.mod_eq_of_lt hlt]
        split_ifs <;> simp_all

/-- C12 (failing input): for `new_val = 0xFFFFFFFF` (the value that
`ibverbs_restore_mr` passes for a recorded `mrn = 0`, and the value written
back when the knob has read 4294967295) `rxe_set_parameter` writes the three
bytes `-1` and newline, not the unsigned decimal text `4294967295` and
newline: the format is `%d`, while the value is a `uint32_t` and is read with
`%u`. For `new_val = 2^31` it writes `-2147483648` and newline. -/
theorem knob_text_is_signed :
    (rxe_set_parameter_bytes { pread := none, pwrite := 3 } 4294967295 none).written
      = some ['-', '1', '\n'] ∧
    Nat.toDigits 10 4294967295 ++ ['\n'] = "4294967295\n".toList ∧
    (rxe_set_parameter_bytes { pread := none, pwrite := 3 } 4294967295 none).written
      ≠ some (Nat.toDigits 10 4294967295 ++ ['\n']) ∧
    sub32 0 1 = 4294967295 ∧
    (rxe_set_parameter_bytes { pread := some "4294967295\n".toList, pwrite := 12 }
      2147483648 (some 0)).written = some "-2147483648\n".toList ∧
    (rxe_set_parameter_bytes { pread := some "4294967295\n".toList, pwrite := 12 }
      2147483648 (some 0)).old_val = some 4294967295 := by
  refine ⟨by decide, by decide, by decide, by decide, by decide, by decide⟩

end Ibverbs
